import Mathlib

/-!
# Linear-Algebra: vectors, points, lines and planes in 3D

A shallow embedding of `Math.h`, `Vector3.h`, `Point3.h`, `Line3.h` and `Plane3.h`.

* The scalar type `T` of the templates is a type `α` with a linear ordered field structure;
  instantiated at `ℚ` every definition below can be evaluated, instantiated at `ℝ` the
  theorems read scalars as exact reals.
* `sqrt`, `acos` and `asin` are not field operations, so the functions that call them take
  them as arguments; the theorems about magnitudes pass `Real.sqrt`.
* A fatal assertion is the result `none` of an `Option`; a `std::optional` result is an
  `Option` as well, so a function that can both abort and return an empty optional has
  the type `Option (Option _)`.
-/

namespace LinAlg

variable {α : Type} [LinearOrderedField α]

/-! ## Math.h -/

/-- The tolerance `EPSILON = 1e-5`. -/
def EPSILON : α := 1 / 100000

/-- The template `IsZero(value)`: `abs(value) < EPSILON`. -/
def IsZero (value : α) : Bool := decide (|value| < EPSILON)

/-- Modelled from the spec: the header `Assert.h` with the macro `Assert` is missing; the
spec describes it as a fatal-abort assertion invoked when a precondition is violated.
The abort is the value `none`. -/
def Assert (condition : Bool) : Option Unit := if condition then some () else none

/-! ## Vector3.h and Point3.h -/

/-- The struct `Vector3<T>`. -/
structure Vector3 (α : Type) where
  x : α
  y : α
  z : α
deriving DecidableEq, Repr

/-- The struct `Point3<T>`. -/
structure Point3 (α : Type) where
  x : α
  y : α
  z : α
deriving DecidableEq, Repr

namespace Vector3

/-- The function `Vector3::MagnitudeSquared`. -/
def MagnitudeSquared (v : Vector3 α) : α := v.x * v.x + v.y * v.y + v.z * v.z

/-- The function `Vector3::Magnitude`, with the square root of the scalar type as first
argument. -/
def Magnitude (sqrt : α → α) (v : Vector3 α) : α := sqrt v.MagnitudeSquared

/-- The function `Vector3::Normalized`; asserts `magnitude > EPSILON`. -/
def Normalized (sqrt : α → α) (v : Vector3 α) : Option (Vector3 α) :=
  let magnitude := v.Magnitude sqrt
  (Assert (decide (magnitude > EPSILON))).map fun _ =>
    ⟨v.x / magnitude, v.y / magnitude, v.z / magnitude⟩

/-- The function `Vector3::DotProduct`. -/
def DotProduct (v other : Vector3 α) : α := v.x * other.x + v.y * other.y + v.z * other.z

/-- The function `Vector3::CrossProduct`. -/
def CrossProduct (v other : Vector3 α) : Vector3 α :=
  ⟨v.y * other.z - v.z * other.y, v.z * other.x - v.x * other.z, v.x * other.y - v.y * other.x⟩

/-- The function `Vector3::AngleBetween`, with `sqrt` and `acos` of the scalar type as first
arguments; asserts `magnitudesMultiplied > EPSILON`. -/
def AngleBetween (sqrt acos : α → α) (v other : Vector3 α) : Option α :=
  let magnitudesMultiplied := v.Magnitude sqrt * other.Magnitude sqrt
  (Assert (decide (magnitudesMultiplied > EPSILON))).map fun _ =>
    acos (v.DotProduct other / magnitudesMultiplied)

/-- The operator `Vector3::operator*(scalar)`. -/
def mul (v : Vector3 α) (scalar : α) : Vector3 α := ⟨v.x * scalar, v.y * scalar, v.z * scalar⟩

/-- The operator `Vector3::operator/(scalar)`. -/
def div (v : Vector3 α) (scalar : α) : Vector3 α := ⟨v.x / scalar, v.y / scalar, v.z / scalar⟩

/-- The operator `Vector3::operator+(other)`. -/
def add (v other : Vector3 α) : Vector3 α := ⟨v.x + other.x, v.y + other.y, v.z + other.z⟩

/-- The operator `Vector3::operator-(other)`. -/
def sub (v other : Vector3 α) : Vector3 α := ⟨v.x - other.x, v.y - other.y, v.z - other.z⟩

/-- Unary `Vector3::operator-()`. -/
def neg (v : Vector3 α) : Vector3 α := ⟨-v.x, -v.y, -v.z⟩

/-- Unary `Vector3::operator+()`. -/
def pos (v : Vector3 α) : Vector3 α := ⟨v.x, v.y, v.z⟩

/-- The function `Vector3::ProjectOnto`; asserts `other.MagnitudeSquared() > EPSILON`. -/
def ProjectOnto (v other : Vector3 α) : Option (Vector3 α) :=
  let otherMagnitudeSquared := other.MagnitudeSquared
  (Assert (decide (otherMagnitudeSquared > EPSILON))).map fun _ =>
    other.mul (v.DotProduct other / otherMagnitudeSquared)

/-- The function `Vector3::ToPoint`. -/
def ToPoint (v : Vector3 α) : Point3 α := ⟨v.x, v.y, v.z⟩

/-- The function `Vector3::IsZeroVector`: `MagnitudeSquared() < EPSILON`. -/
def IsZeroVector (v : Vector3 α) : Bool := decide (v.MagnitudeSquared < EPSILON)

/-- The function `Vector3::IsParallelTo`. -/
def IsParallelTo (v other : Vector3 α) : Bool := (v.CrossProduct other).IsZeroVector

/-- The function `Vector3::IsOrthogonalTo`. -/
def IsOrthogonalTo (v other : Vector3 α) : Bool := decide (|v.DotProduct other| < EPSILON)

/-- The operator `Vector3::operator==`, component-wise within the tolerance. -/
def eq (v other : Vector3 α) : Bool :=
  decide (|v.x - other.x| < EPSILON) && decide (|v.y - other.y| < EPSILON)
    && decide (|v.z - other.z| < EPSILON)

/-- The operator `Vector3::operator!=`. -/
def ne (v other : Vector3 α) : Bool := !(v.eq other)

end Vector3

namespace Point3

/-- The function `Point3::ToVector`. -/
def ToVector (p : Point3 α) : Vector3 α := ⟨p.x, p.y, p.z⟩

/-- The operator `Point3::operator==`, component-wise within the tolerance. -/
def eq (p other : Point3 α) : Bool :=
  decide (|p.x - other.x| < EPSILON) && decide (|p.y - other.y| < EPSILON)
    && decide (|p.z - other.z| < EPSILON)

/-- The operator `Point3::operator!=`. -/
def ne (p other : Point3 α) : Bool := !(p.eq other)

/-- The operator `Point3::operator+(vector)`. -/
def add (p : Point3 α) (vector : Vector3 α) : Point3 α :=
  ⟨p.x + vector.x, p.y + vector.y, p.z + vector.z⟩

/-- The operator `Point3::operator-(other)`. -/
def sub (p other : Point3 α) : Vector3 α := ⟨p.x - other.x, p.y - other.y, p.z - other.z⟩

end Point3

/-! ## Line3.h -/

/-- The struct `Line3<T>`. -/
structure Line3 (α : Type) where
  point : Point3 α
  direction : Vector3 α
deriving DecidableEq, Repr

namespace Line3

/-- The constructor `Line3(point, direction)`; asserts `!direction.IsZeroVector()`. -/
def new (point : Point3 α) (direction : Vector3 α) : Option (Line3 α) :=
  (Assert (!direction.IsZeroVector)).map fun _ => ⟨point, direction⟩

/-- The constructor `Line3(point1, point2)`. -/
def ofPoints (point1 point2 : Point3 α) : Option (Line3 α) :=
  let direction := point2.sub point1
  (Assert (!direction.IsZeroVector)).map fun _ => ⟨point1, direction⟩

/-- The parameters `t1, t2` computed by `Line3::GetClosestPointsWith`; the fallback
branch asserts `otherDirectionMagnitudeSquared > EPSILON`. -/
def closestParams (self other : Line3 α) : Option (α × α) :=
  let crossProduct := self.direction.CrossProduct other.direction
  let vector := other.point.sub self.point
  if !IsZero crossProduct.x then
    some ((other.direction.z * vector.y - other.direction.y * vector.z) / crossProduct.x,
          (self.direction.z * vector.y - self.direction.y * vector.z) / crossProduct.x)
  else if !IsZero crossProduct.y then
    some ((other.direction.z * vector.x - other.direction.x * vector.z) / -crossProduct.y,
          (self.direction.z * vector.x - self.direction.x * vector.z) / -crossProduct.y)
  else if !IsZero crossProduct.z then
    some ((other.direction.y * vector.x - other.direction.x * vector.y) / crossProduct.z,
          (self.direction.y * vector.x - self.direction.x * vector.y) / crossProduct.z)
  else
    let otherDirectionMagnitudeSquared := other.direction.MagnitudeSquared
    (Assert (decide (otherDirectionMagnitudeSquared > EPSILON))).map fun _ =>
      (0, -vector.DotProduct other.direction / otherDirectionMagnitudeSquared)

/-- The function `Line3::GetClosestPointsWith`. -/
def GetClosestPointsWith (self other : Line3 α) : Option (Point3 α × Point3 α) :=
  (closestParams self other).map fun t =>
    (self.point.add (self.direction.mul t.1), other.point.add (other.direction.mul t.2))

/-- The function `Line3::IsParallelTo`. -/
def IsParallelTo (self other : Line3 α) : Bool := self.direction.IsParallelTo other.direction

/-- The function `Line3::PointOfIntersection`: the outer `Option` is the abort, the inner one the
`std::optional`. -/
def PointOfIntersection (self other : Line3 α) : Option (Option (Point3 α)) :=
  if self.IsParallelTo other then some none
  else (self.GetClosestPointsWith other).map fun closestPoints =>
    if closestPoints.1.eq closestPoints.2 then some closestPoints.1 else none

/-- The function `Line3::IsIntersectingWith`. -/
def IsIntersectingWith (self other : Line3 α) : Option Bool :=
  (self.PointOfIntersection other).map Option.isSome

/-- The function `Line3::AngleBetween`, with `sqrt` and `acos` of the scalar type as first
arguments; asserts `magnitudesMultiplied > EPSILON` when the lines intersect. -/
def AngleBetween (sqrt acos : α → α) (self other : Line3 α) : Option α :=
  (self.IsIntersectingWith other).bind fun intersecting =>
    if !intersecting then some 0
    else
      let magnitudesMultiplied := self.direction.Magnitude sqrt * other.direction.Magnitude sqrt
      (Assert (decide (magnitudesMultiplied > EPSILON))).map fun _ =>
        acos (|self.direction.DotProduct other.direction| / magnitudesMultiplied)

/-- The function `Line3::IsOrthogonalTo`; `&&` evaluates its right operand only when the
left one is true. -/
def IsOrthogonalTo (self other : Line3 α) : Option Bool :=
  if self.direction.IsOrthogonalTo other.direction then self.IsIntersectingWith other
  else some false

/-- The function `Line3::IsSkewTo`; `&&` evaluates its right operand only when the left
one is true. -/
def IsSkewTo (self other : Line3 α) : Option Bool :=
  if !self.IsParallelTo other then (self.IsIntersectingWith other).map (!·)
  else some false

/-- The function `Line3::DistanceTo(const Point3&)`; asserts
`directionMagnitude > EPSILON`. -/
def DistanceToPoint (sqrt : α → α) (self : Line3 α) (point : Point3 α) : Option α :=
  let directionMagnitude := self.direction.Magnitude sqrt
  (Assert (decide (directionMagnitude > EPSILON))).map fun _ =>
    (self.direction.CrossProduct (point.sub self.point)).Magnitude sqrt / directionMagnitude

/-- The function `Line3::DistanceTo(const Line3&)`. -/
def DistanceTo (sqrt : α → α) (self other : Line3 α) : Option α :=
  (self.GetClosestPointsWith other).map fun closestPoints =>
    (closestPoints.2.sub closestPoints.1).Magnitude sqrt

/-- The function `Line3::IsPointOnLine`. -/
def IsPointOnLine (self : Line3 α) (point : Point3 α) : Bool :=
  self.direction.IsParallelTo (point.sub self.point)

/-- The operator `Line3::operator==`. -/
def eq (self other : Line3 α) : Bool :=
  self.IsPointOnLine other.point && self.direction.IsParallelTo other.direction

/-- The operator `Line3::operator!=`. -/
def ne (self other : Line3 α) : Bool := !(self.eq other)

end Line3

/-! ## Plane3.h -/

/-- The struct `Plane3<T>`. -/
structure Plane3 (α : Type) where
  point : Point3 α
  normal : Vector3 α
deriving DecidableEq, Repr

namespace Plane3

/-- The constructor `Plane3(point, normal)`; asserts `!normal.IsZeroVector()`. -/
def new (point : Point3 α) (normal : Vector3 α) : Option (Plane3 α) :=
  (Assert (!normal.IsZeroVector)).map fun _ => ⟨point, normal⟩

/-- The constructor `Plane3(point, vector1, vector2)`. -/
def ofVectors (point : Point3 α) (vector1 vector2 : Vector3 α) : Option (Plane3 α) :=
  let normal := vector1.CrossProduct vector2
  (Assert (!normal.IsZeroVector)).map fun _ => ⟨point, normal⟩

/-- The constructor `Plane3(point1, point2, point3)`. -/
def ofPoints (point1 point2 point3 : Point3 α) : Option (Plane3 α) :=
  let normal := (point2.sub point1).CrossProduct (point3.sub point1)
  (Assert (!normal.IsZeroVector)).map fun _ => ⟨point1, normal⟩

/-- The constructor `Plane3(line1, line2)`; its last branch is `Assert(!"Skewed lines
cannot form a plane!")`, which always aborts. -/
def ofLines (line1 line2 : Line3 α) : Option (Plane3 α) :=
  let crossProduct := line1.direction.CrossProduct line2.direction
  if crossProduct.IsZeroVector then
    some ⟨line1.point, line1.direction.CrossProduct (line2.point.sub line1.point)⟩
  else
    (line1.IsIntersectingWith line2).bind fun intersecting =>
      if intersecting then some ⟨line1.point, crossProduct⟩
      else (Assert false).map fun _ => ⟨line1.point, ⟨0, 0, 0⟩⟩

/-- The constructor `Plane3(a, b, c, d)`; the point starts as `(0, 0, 0)` and the last
branch is `Assert(!"Normal vector is the zero vector!")`, which always aborts. -/
def ofCoefficients (a b c d : α) : Option (Plane3 α) :=
  let normal : Vector3 α := ⟨a, b, c⟩
  if !IsZero a then some ⟨⟨-d / a, 0, 0⟩, normal⟩
  else if !IsZero b then some ⟨⟨0, -d / b, 0⟩, normal⟩
  else if !IsZero c then some ⟨⟨0, 0, -d / c⟩, normal⟩
  else (Assert false).map fun _ => ⟨⟨0, 0, 0⟩, normal⟩

/-- The function `Plane3::RelativeDistanceTo`. -/
def RelativeDistanceTo (self : Plane3 α) (point : Point3 α) : α :=
  self.normal.DotProduct (point.sub self.point)

/-- The function `Plane3::PointOfIntersection`. -/
def PointOfIntersection (self : Plane3 α) (line : Line3 α) : Option (Point3 α) :=
  let dotProduct := self.normal.DotProduct line.direction
  if dotProduct < EPSILON then none
  else
    let t := -self.RelativeDistanceTo line.point / dotProduct
    some (line.point.add (line.direction.mul t))

/-- The function `Plane3::LineOfIntersection`: the outer `Option` is the abort of the `Line3`
constructor, the inner one the `std::optional`; the local point starts as `(0, 0, 0)`. -/
def LineOfIntersection (self other : Plane3 α) : Option (Option (Line3 α)) :=
  let crossProduct := self.normal.CrossProduct other.normal
  if crossProduct.IsZeroVector then some none
  else
    let thisDotProduct := self.normal.DotProduct self.point.ToVector
    let otherDotProduct := other.normal.DotProduct other.point.ToVector
    let point : Point3 α :=
      if !IsZero crossProduct.x then
        ⟨0,
         (other.normal.z * thisDotProduct - self.normal.z * otherDotProduct) / crossProduct.x,
         (other.normal.y * thisDotProduct - self.normal.y * otherDotProduct) / -crossProduct.x⟩
      else if !IsZero crossProduct.y then
        ⟨(other.normal.z * thisDotProduct - self.normal.z * otherDotProduct) / -crossProduct.y,
         0,
         (other.normal.x * thisDotProduct - self.normal.x * otherDotProduct) / crossProduct.y⟩
      else if !IsZero crossProduct.z then
        ⟨(other.normal.y * thisDotProduct - self.normal.y * otherDotProduct) / crossProduct.z,
         (other.normal.x * thisDotProduct - self.normal.x * otherDotProduct) / -crossProduct.z,
         0⟩
      else ⟨0, 0, 0⟩
    (Line3.new point crossProduct).map some

/-- The function `Plane3::DistanceTo(const Point3&)`; asserts `normalMagnitude > EPSILON`. -/
def DistanceToPoint (sqrt : α → α) (self : Plane3 α) (point : Point3 α) : Option α :=
  let normalMagnitude := self.normal.Magnitude sqrt
  (Assert (decide (normalMagnitude > EPSILON))).map fun _ =>
    |self.RelativeDistanceTo point| / normalMagnitude

/-- The function `Plane3::IsPointInPlane`. -/
def IsPointInPlane (self : Plane3 α) (point : Point3 α) : Bool :=
  IsZero (self.RelativeDistanceTo point)

/-- The function `Plane3::IsLineInPlane`. -/
def IsLineInPlane (self : Plane3 α) (line : Line3 α) : Bool :=
  self.IsPointInPlane line.point && self.IsPointInPlane (line.point.add line.direction)

/-- The function `Plane3::IsParallelTo(const Line3&)`. -/
def IsParallelToLine (self : Plane3 α) (line : Line3 α) : Bool :=
  self.normal.IsOrthogonalTo line.direction

/-- The function `Plane3::IsParallelTo(const Plane3&)`. -/
def IsParallelTo (self other : Plane3 α) : Bool := self.normal.IsParallelTo other.normal

/-- The function `Plane3::IsOrthogonalTo(const Line3&)`. -/
def IsOrthogonalToLine (self : Plane3 α) (line : Line3 α) : Bool :=
  self.normal.IsParallelTo line.direction

/-- The function `Plane3::IsOrthogonalTo(const Plane3&)`. -/
def IsOrthogonalTo (self other : Plane3 α) : Bool := self.normal.IsOrthogonalTo other.normal

/-- The function `Plane3::AngleBetween(const Line3&)`, with `sqrt` and `asin` of the scalar
type as first arguments; asserts `magnitudesMultiplied > EPSILON`. -/
def AngleBetweenLine (sqrt asin : α → α) (self : Plane3 α) (line : Line3 α) : Option α :=
  if self.IsParallelToLine line then some 0
  else
    let magnitudesMultiplied := self.normal.Magnitude sqrt * line.direction.Magnitude sqrt
    (Assert (decide (magnitudesMultiplied > EPSILON))).map fun _ =>
      asin (|self.normal.DotProduct line.direction| / magnitudesMultiplied)

/-- The function `Plane3::AngleBetween(const Plane3&)`, with `sqrt` and `acos` of the scalar
type as first arguments; asserts `magnitudesMultiplied > EPSILON`. -/
def AngleBetween (sqrt acos : α → α) (self other : Plane3 α) : Option α :=
  if self.IsParallelTo other then some 0
  else
    let magnitudesMultiplied := self.normal.Magnitude sqrt * other.normal.Magnitude sqrt
    (Assert (decide (magnitudesMultiplied > EPSILON))).map fun _ =>
      acos (|self.normal.DotProduct other.normal| / magnitudesMultiplied)

/-- The function `Plane3::DistanceTo(const Line3&)`. -/
def DistanceToLine (sqrt : α → α) (self : Plane3 α) (line : Line3 α) : Option α :=
  if self.IsParallelToLine line then self.DistanceToPoint sqrt line.point else some 0

/-- The function `Plane3::DistanceTo(const Plane3&)`. -/
def DistanceTo (sqrt : α → α) (self other : Plane3 α) : Option α :=
  if self.IsParallelTo other then self.DistanceToPoint sqrt other.point else some 0

/-- The operator `Plane3::operator==`. -/
def eq (self other : Plane3 α) : Bool :=
  self.IsPointInPlane other.point && self.normal.IsParallelTo other.normal

/-- The operator `Plane3::operator!=`. -/
def ne (self other : Plane3 α) : Bool := !(self.eq other)

end Plane3

/-! ## Shared lemmas -/

theorem EPSILON_pos : (0 : α) < EPSILON := by
  unfold EPSILON; positivity

theorem EPSILON_lt_one : (EPSILON : α) < 1 := by
  unfold EPSILON
  rw [div_lt_one (by norm_num)]
  norm_num

theorem isZero_eq_false_iff (value : α) : IsZero value = false ↔ EPSILON ≤ |value| := by
  simp [IsZero]

theorem isZero_eq_true_iff (value : α) : IsZero value = true ↔ |value| < EPSILON := by
  simp [IsZero]

theorem ne_zero_of_isZero_eq_false {value : α} (h : IsZero value = false) : value ≠ 0 := by
  rw [isZero_eq_false_iff] at h
  intro h0
  rw [h0, abs_zero] at h
  exact absurd h (not_le.mpr EPSILON_pos)

theorem isZeroVector_eq_true_iff (v : Vector3 α) :
    v.IsZeroVector = true ↔ v.MagnitudeSquared < EPSILON := by
  simp [Vector3.IsZeroVector]

theorem isZeroVector_eq_false_iff (v : Vector3 α) :
    v.IsZeroVector = false ↔ EPSILON ≤ v.MagnitudeSquared := by
  simp [Vector3.IsZeroVector]

/-- A square below the tolerance squared: used to bound the squared magnitude. -/
theorem mul_self_lt_of_isZero {value : α} (h : IsZero value = true) :
    value * value < EPSILON * EPSILON := by
  rw [isZero_eq_true_iff] at h
  have h0 : 0 ≤ |value| := abs_nonneg value
  have : |value| * |value| < EPSILON * EPSILON := by nlinarith
  rwa [abs_mul_abs_self] at this

/-- A vector that is not the zero vector has a component that is not `IsZero`. -/
theorem exists_component_of_not_isZeroVector {v : Vector3 α} (h : v.IsZeroVector = false) :
    IsZero v.x = false ∨ IsZero v.y = false ∨ IsZero v.z = false := by
  by_contra hc
  simp only [not_or, Bool.not_eq_false] at hc
  obtain ⟨hx, hy, hz⟩ := hc
  have h1 := mul_self_lt_of_isZero hx
  have h2 := mul_self_lt_of_isZero hy
  have h3 := mul_self_lt_of_isZero hz
  rw [isZeroVector_eq_false_iff] at h
  unfold Vector3.MagnitudeSquared at h
  have he : (EPSILON : α) * EPSILON * 3 < EPSILON := by
    unfold EPSILON; norm_num
  linarith

/-! ## Lines: the closest-points computation -/

/-- When the directions are not parallel, one of the three component branches of
`GetClosestPointsWith` is taken. -/
theorem exists_component_of_not_isParallelTo {A B : Line3 α} (h : A.IsParallelTo B = false) :
    IsZero (A.direction.CrossProduct B.direction).x = false
      ∨ IsZero (A.direction.CrossProduct B.direction).y = false
      ∨ IsZero (A.direction.CrossProduct B.direction).z = false :=
  exists_component_of_not_isZeroVector h

/-- If the two lines meet at `p1 + s·d1 = p2 + u·d2` and a component branch is taken, the
parameters solved for are exactly `s` and `u`. -/
theorem closestParams_of_common_point {A B : Line3 α} {s u : α}
    (hq : A.point.add (A.direction.mul s) = B.point.add (B.direction.mul u))
    (hc : IsZero (A.direction.CrossProduct B.direction).x = false
      ∨ IsZero (A.direction.CrossProduct B.direction).y = false
      ∨ IsZero (A.direction.CrossProduct B.direction).z = false) :
    Line3.closestParams A B = some (s, u) := by
  obtain ⟨⟨p1x, p1y, p1z⟩, ⟨d1x, d1y, d1z⟩⟩ := A
  obtain ⟨⟨p2x, p2y, p2z⟩, ⟨d2x, d2y, d2z⟩⟩ := B
  simp only [Point3.add, Vector3.mul, Point3.mk.injEq] at hq
  obtain ⟨hx, hy, hz⟩ := hq
  simp only [Vector3.CrossProduct] at hc
  simp only [Line3.closestParams, Vector3.CrossProduct, Point3.sub]
  by_cases h1 : IsZero (d1y * d2z - d1z * d2y) = false
  · have n1 := ne_zero_of_isZero_eq_false h1
    rw [if_pos (by simp [h1])]
    simp only [Option.some.injEq, Prod.mk.injEq]
    constructor
    · rw [div_eq_iff n1]; linear_combination d2y * hz - d2z * hy
    · rw [div_eq_iff n1]; linear_combination d1y * hz - d1z * hy
  · rw [Bool.not_eq_false] at h1
    rw [if_neg (by simp [h1])]
    by_cases h2 : IsZero (d1z * d2x - d1x * d2z) = false
    · have n2 := ne_zero_of_isZero_eq_false h2
      rw [if_pos (by simp [h2])]
      simp only [Option.some.injEq, Prod.mk.injEq]
      constructor
      · rw [div_eq_iff (neg_ne_zero.mpr n2)]; linear_combination d2x * hz - d2z * hx
      · rw [div_eq_iff (neg_ne_zero.mpr n2)]; linear_combination d1x * hz - d1z * hx
    · rw [Bool.not_eq_false] at h2
      rw [if_neg (by simp [h2])]
      have h3 : IsZero (d1x * d2y - d1y * d2x) = false := by
        rcases hc with h | h | h
        · rw [h1] at h; cases h
        · rw [h2] at h; cases h
        · exact h
      have n3 := ne_zero_of_isZero_eq_false h3
      rw [if_pos (by simp [h3])]
      simp only [Option.some.injEq, Prod.mk.injEq]
      constructor
      · rw [div_eq_iff n3]; linear_combination d2x * hy - d2y * hx
      · rw [div_eq_iff n3]; linear_combination d1x * hy - d1y * hx

/-- A point equals itself under the tolerance-based `Point3::operator==`. -/
theorem Point3.eq_self (p : Point3 α) : p.eq p = true := by
  simp [Point3.eq, EPSILON_pos]

/-! ## Lines and planes: intersections (C1 to C5) -/

/-- C1 (defect of `GetClosestPointsWith`): for `A = ((0,0,0),(1,0,0))` and
`B = ((0,0,1),(0,1,1))` the cross product of the directions is `(0,-1,1)`, so the `y` branch
is taken; the points returned are `(0,0,0)` and `(0,-1,0)`, the vector between them has dot
product `-1` with the direction of `B`, `DistanceTo` is `1`, while the points `(0,0,0)` of
`A` and `(0,-1/2,1/2)` of `B` are at squared distance `1/2`, and the distance
`|dot(p2 - p1, c)| / |c|` between the lines is `1 / sqrt 2`. -/
theorem C1_closest_points_are_not_closest :
    IsZero ((⟨1, 0, 0⟩ : Vector3 ℝ).CrossProduct ⟨0, 1, 1⟩).y = false
    ∧ Line3.GetClosestPointsWith (⟨⟨0, 0, 0⟩, ⟨1, 0, 0⟩⟩ : Line3 ℝ) ⟨⟨0, 0, 1⟩, ⟨0, 1, 1⟩⟩
        = some (⟨0, 0, 0⟩, ⟨0, -1, 0⟩)
    ∧ (Point3.sub (⟨0, -1, 0⟩ : Point3 ℝ) ⟨0, 0, 0⟩).DotProduct ⟨0, 1, 1⟩ = -1
    ∧ Line3.DistanceTo Real.sqrt (⟨⟨0, 0, 0⟩, ⟨1, 0, 0⟩⟩ : Line3 ℝ) ⟨⟨0, 0, 1⟩, ⟨0, 1, 1⟩⟩
        = some 1
    ∧ (Point3.sub (Point3.add (⟨0, 0, 1⟩ : Point3 ℝ) (Vector3.mul ⟨0, 1, 1⟩ (-1 / 2)))
        (Point3.add ⟨0, 0, 0⟩ (Vector3.mul ⟨1, 0, 0⟩ 0))).MagnitudeSquared = 1 / 2
    ∧ |(Point3.sub (⟨0, 0, 1⟩ : Point3 ℝ) ⟨0, 0, 0⟩).DotProduct
          ((⟨1, 0, 0⟩ : Vector3 ℝ).CrossProduct ⟨0, 1, 1⟩)|
        / ((⟨1, 0, 0⟩ : Vector3 ℝ).CrossProduct ⟨0, 1, 1⟩).Magnitude Real.sqrt
        = 1 / Real.sqrt 2
    ∧ 1 / Real.sqrt 2 < 1 := by
  have hp : Line3.closestParams (⟨⟨0, 0, 0⟩, ⟨1, 0, 0⟩⟩ : Line3 ℝ) ⟨⟨0, 0, 1⟩, ⟨0, 1, 1⟩⟩
      = some (0, -1) := by
    norm_num [Line3.closestParams, Vector3.CrossProduct, Point3.sub, IsZero, EPSILON]
  have hg : Line3.GetClosestPointsWith (⟨⟨0, 0, 0⟩, ⟨1, 0, 0⟩⟩ : Line3 ℝ)
      ⟨⟨0, 0, 1⟩, ⟨0, 1, 1⟩⟩ = some (⟨0, 0, 0⟩, ⟨0, -1, 0⟩) := by
    rw [Line3.GetClosestPointsWith, hp]
    norm_num [Point3.add, Vector3.mul]
  refine ⟨?_, hg, ?_, ?_, ?_, ?_, ?_⟩
  · norm_num [Vector3.CrossProduct, IsZero, EPSILON]
  · norm_num [Point3.sub, Vector3.DotProduct]
  · rw [Line3.DistanceTo, hg]
    norm_num [Point3.sub, Vector3.Magnitude, Vector3.MagnitudeSquared]
  · norm_num [Point3.sub, Point3.add, Vector3.mul, Vector3.MagnitudeSquared]
  · norm_num [Point3.sub, Vector3.DotProduct, Vector3.CrossProduct, Vector3.Magnitude,
      Vector3.MagnitudeSquared]
  · rw [div_lt_one (Real.sqrt_pos.mpr (by norm_num))]
    rw [Real.lt_sqrt (by norm_num)]
    norm_num

/-- C2: two lines whose directions are not parallel and that share the point
`q = p1 + s·d1 = p2 + u·d2` have `PointOfIntersection` equal to exactly `q`; and the
lines `((0,0,0),(1,0,0))`, `((0,0,0),(0,1,0))` intersect at `(0,0,0)`. -/
theorem C2_pointOfIntersection_common_point :
    (∀ (A B : Line3 α) (q : Point3 α) (s u : α),
      A.IsParallelTo B = false →
      q = A.point.add (A.direction.mul s) →
      q = B.point.add (B.direction.mul u) →
      A.PointOfIntersection B = some (some q))
    ∧ Line3.PointOfIntersection (⟨⟨0, 0, 0⟩, ⟨1, 0, 0⟩⟩ : Line3 α) ⟨⟨0, 0, 0⟩, ⟨0, 1, 0⟩⟩
        = some (some ⟨0, 0, 0⟩) := by
  have main : ∀ (A B : Line3 α) (q : Point3 α) (s u : α),
      A.IsParallelTo B = false →
      q = A.point.add (A.direction.mul s) →
      q = B.point.add (B.direction.mul u) →
      A.PointOfIntersection B = some (some q) := by
    intro A B q s u hpar hA hB
    have hp := closestParams_of_common_point (hA.symm.trans hB)
      (exists_component_of_not_isParallelTo hpar)
    simp only [Line3.PointOfIntersection, hpar, Line3.GetClosestPointsWith, hp,
      Option.map_some', ← hA, ← hB, Point3.eq_self]
    simp
  refine ⟨main, ?_⟩
  refine main _ _ _ 0 0 ?_ ?_ ?_
  · norm_num [Line3.IsParallelTo, Vector3.IsParallelTo, Vector3.CrossProduct,
      Vector3.IsZeroVector, Vector3.MagnitudeSquared, EPSILON]
  · norm_num [Point3.add, Vector3.mul]
  · norm_num [Point3.add, Vector3.mul]

/-- Witness for C2: the lines `((1,2,0),(-1,1,3))` and `((0,0,0),(0,3,3))` share the point
`(0,3,3)`. -/
theorem C2_pointOfIntersection_common_point_witness :
    Line3.IsParallelTo (⟨⟨1, 2, 0⟩, ⟨-1, 1, 3⟩⟩ : Line3 ℚ) ⟨⟨0, 0, 0⟩, ⟨0, 3, 3⟩⟩ = false
    ∧ Line3.PointOfIntersection (⟨⟨1, 2, 0⟩, ⟨-1, 1, 3⟩⟩ : Line3 ℚ) ⟨⟨0, 0, 0⟩, ⟨0, 3, 3⟩⟩
        = some (some ⟨0, 3, 3⟩) := by
  have hpar : Line3.IsParallelTo (⟨⟨1, 2, 0⟩, ⟨-1, 1, 3⟩⟩ : Line3 ℚ)
      ⟨⟨0, 0, 0⟩, ⟨0, 3, 3⟩⟩ = false := by
    norm_num [Line3.IsParallelTo, Vector3.IsParallelTo, Vector3.CrossProduct,
      Vector3.IsZeroVector, Vector3.MagnitudeSquared, EPSILON]
  exact ⟨hpar, C2_pointOfIntersection_common_point.1 _ _ _ 1 1 hpar
    (by norm_num [Point3.add, Vector3.mul]) (by norm_num [Point3.add, Vector3.mul])⟩

/-- C3: `LineOfIntersection` is empty exactly when the cross product of the normals is the
zero vector; otherwise it returns, without an abort of the `Line3` constructor, a line with
that cross product as direction and a point `r` with `dot(n1, r - q1) = 0` and
`dot(n2, r - q2) = 0`, and every point `r + t·direction` lies in both planes. -/
theorem C3_lineOfIntersection (P1 P2 : Plane3 α) :
    (P1.LineOfIntersection P2 = some none
      ↔ (P1.normal.CrossProduct P2.normal).IsZeroVector = true)
    ∧ ((P1.normal.CrossProduct P2.normal).IsZeroVector = false →
        ∃ r : Point3 α,
          P1.LineOfIntersection P2 = some (some ⟨r, P1.normal.CrossProduct P2.normal⟩)
          ∧ P1.normal.DotProduct (r.sub P1.point) = 0
          ∧ P2.normal.DotProduct (r.sub P2.point) = 0
          ∧ ∀ t : α,
              P1.RelativeDistanceTo (r.add ((P1.normal.CrossProduct P2.normal).mul t)) = 0
              ∧ P2.RelativeDistanceTo (r.add ((P1.normal.CrossProduct P2.normal).mul t)) = 0) := by
  have key : (P1.normal.CrossProduct P2.normal).IsZeroVector = false →
      ∃ r : Point3 α,
        P1.LineOfIntersection P2 = some (some ⟨r, P1.normal.CrossProduct P2.normal⟩)
        ∧ P1.normal.DotProduct (r.sub P1.point) = 0
        ∧ P2.normal.DotProduct (r.sub P2.point) = 0 := by
    intro hz
    have hc := exists_component_of_not_isZeroVector hz
    obtain ⟨⟨q1x, q1y, q1z⟩, ⟨n1x, n1y, n1z⟩⟩ := P1
    obtain ⟨⟨q2x, q2y, q2z⟩, ⟨n2x, n2y, n2z⟩⟩ := P2
    simp only [Plane3.LineOfIntersection, hz, Line3.new, Assert, Bool.not_false, if_true,
      Option.map_some', Bool.false_eq_true, if_false]
    refine ⟨_, rfl, ?_⟩
    simp only [Vector3.CrossProduct] at hc ⊢
    by_cases h1 : IsZero (n1y * n2z - n1z * n2y) = false
    · have n1 := ne_zero_of_isZero_eq_false h1
      simp only [h1, Bool.not_false, if_true, Vector3.DotProduct, Point3.sub,
        Point3.ToVector, div_neg]
      constructor <;> (field_simp; ring)
    · rw [Bool.not_eq_false] at h1
      by_cases h2 : IsZero (n1z * n2x - n1x * n2z) = false
      · have n2 := ne_zero_of_isZero_eq_false h2
        simp only [h1, h2, Bool.not_true, Bool.not_false, if_true, Bool.false_eq_true,
          if_false, Vector3.DotProduct, Point3.sub, Point3.ToVector, div_neg]
        constructor <;> (field_simp; ring)
      · rw [Bool.not_eq_false] at h2
        have h3 : IsZero (n1x * n2y - n1y * n2x) = false := by
          rcases hc with h | h | h
          · rw [h1] at h; cases h
          · rw [h2] at h; cases h
          · exact h
        have n3 := ne_zero_of_isZero_eq_false h3
        simp only [h1, h2, h3, Bool.not_true, Bool.not_false, if_true, Bool.false_eq_true,
          if_false, Vector3.DotProduct, Point3.sub, Point3.ToVector, div_neg]
        constructor <;> (field_simp; ring)
  constructor
  · constructor
    · intro h
      by_contra hz
      rw [Bool.not_eq_true] at hz
      obtain ⟨r, hr, _⟩ := key hz
      rw [hr] at h
      cases h
    · intro hz
      simp [Plane3.LineOfIntersection, hz]
  · intro hz
    obtain ⟨r, hr, h1, h2⟩ := key hz
    refine ⟨r, hr, h1, h2, fun t => ?_⟩
    simp only [Plane3.RelativeDistanceTo, Vector3.DotProduct, Point3.sub, Point3.add,
      Vector3.mul, Vector3.CrossProduct] at h1 h2 ⊢
    constructor
    · linear_combination h1
    · linear_combination h2

/-- Witness for C3: the planes `5x - 6y + 4z + 2 = 0` and `9x - 2z + 1 = 0` of the demo
program meet in a line through `(0, 2/3, 1/2)` with direction `(12, 46, 54)`. -/
theorem C3_lineOfIntersection_witness :
    ((⟨5, -6, 4⟩ : Vector3 ℚ).CrossProduct ⟨9, 0, -2⟩).IsZeroVector = false
    ∧ ∃ r : Point3 ℚ,
        Plane3.LineOfIntersection (⟨⟨-2 / 5, 0, 0⟩, ⟨5, -6, 4⟩⟩ : Plane3 ℚ)
            ⟨⟨-1 / 9, 0, 0⟩, ⟨9, 0, -2⟩⟩
          = some (some ⟨r, (⟨5, -6, 4⟩ : Vector3 ℚ).CrossProduct ⟨9, 0, -2⟩⟩)
        ∧ (⟨5, -6, 4⟩ : Vector3 ℚ).DotProduct (r.sub ⟨-2 / 5, 0, 0⟩) = 0
        ∧ (⟨9, 0, -2⟩ : Vector3 ℚ).DotProduct (r.sub ⟨-1 / 9, 0, 0⟩) = 0 := by
  have hz : ((⟨5, -6, 4⟩ : Vector3 ℚ).CrossProduct ⟨9, 0, -2⟩).IsZeroVector = false := by
    norm_num [Vector3.CrossProduct, Vector3.IsZeroVector, Vector3.MagnitudeSquared, EPSILON]
  obtain ⟨r, hr, h1, h2, _⟩ :=
    (C3_lineOfIntersection (⟨⟨-2 / 5, 0, 0⟩, ⟨5, -6, 4⟩⟩ : Plane3 ℚ)
      ⟨⟨-1 / 9, 0, 0⟩, ⟨9, 0, -2⟩⟩).2 hz
  exact ⟨hz, r, hr, h1, h2⟩

/-- C4: a point `r` returned by `Plane3::PointOfIntersection` is the point
`p + t·d` of the line for `t = -RelativeDistanceTo(p) / dot(n, d)` and has
`RelativeDistanceTo(r) = 0`; the plane built from the coefficients `(5, -6, 4, 2)` and
the line through `(1, 2, 0)` with direction `(-1, 1, 3)` give the point `(-4, 7, 15)`,
which satisfies `5x - 6y + 4z + 2 = 0`. -/
theorem C4_plane_pointOfIntersection :
    (∀ (P : Plane3 α) (L : Line3 α) (r : Point3 α),
      P.PointOfIntersection L = some r →
      r = L.point.add (L.direction.mul
            (-P.RelativeDistanceTo L.point / P.normal.DotProduct L.direction))
      ∧ P.RelativeDistanceTo r = 0)
    ∧ ∃ (P : Plane3 α) (r : Point3 α),
        Plane3.ofCoefficients 5 (-6) 4 2 = some P
        ∧ P.PointOfIntersection ⟨⟨1, 2, 0⟩, ⟨-1, 1, 3⟩⟩ = some r
        ∧ 5 * r.x - 6 * r.y + 4 * r.z + 2 = 0 := by
  constructor
  · intro P L r h
    unfold Plane3.PointOfIntersection at h
    simp only at h
    split_ifs at h with hd
    rw [Option.some.injEq] at h
    refine ⟨h.symm, ?_⟩
    have hpos : P.normal.DotProduct L.direction ≠ 0 :=
      ne_of_gt (lt_of_lt_of_le EPSILON_pos (not_lt.mp hd))
    rw [← h]
    obtain ⟨⟨qx, qy, qz⟩, ⟨nx, ny, nz⟩⟩ := P
    obtain ⟨⟨px, py, pz⟩, ⟨dx, dy, dz⟩⟩ := L
    simp only [Plane3.RelativeDistanceTo, Vector3.DotProduct, Point3.sub, Point3.add,
      Vector3.mul] at hpos ⊢
    field_simp
    ring
  · refine ⟨⟨⟨-2 / 5, 0, 0⟩, ⟨5, -6, 4⟩⟩, ⟨-4, 7, 15⟩, ?_, ?_, ?_⟩
    · norm_num [Plane3.ofCoefficients, IsZero, EPSILON]
    · norm_num [Plane3.PointOfIntersection, Plane3.RelativeDistanceTo, Vector3.DotProduct,
        Point3.sub, Point3.add, Vector3.mul, EPSILON]
    · norm_num

/-- Witness for C4: the plane `((-2/5, 0, 0), (5, -6, 4))` and the line
`((1, 2, 0), (-1, 1, 3))` of the demo program. -/
theorem C4_plane_pointOfIntersection_witness :
    Plane3.PointOfIntersection (⟨⟨-2 / 5, 0, 0⟩, ⟨5, -6, 4⟩⟩ : Plane3 ℚ)
        ⟨⟨1, 2, 0⟩, ⟨-1, 1, 3⟩⟩ = some ⟨-4, 7, 15⟩
    ∧ Plane3.RelativeDistanceTo (⟨⟨-2 / 5, 0, 0⟩, ⟨5, -6, 4⟩⟩ : Plane3 ℚ) ⟨-4, 7, 15⟩ = 0 := by
  have h : Plane3.PointOfIntersection (⟨⟨-2 / 5, 0, 0⟩, ⟨5, -6, 4⟩⟩ : Plane3 ℚ)
      ⟨⟨1, 2, 0⟩, ⟨-1, 1, 3⟩⟩ = some ⟨-4, 7, 15⟩ := by
    norm_num [Plane3.PointOfIntersection, Plane3.RelativeDistanceTo, Vector3.DotProduct,
      Point3.sub, Point3.add, Vector3.mul, EPSILON]
  exact ⟨h, (C4_plane_pointOfIntersection.1 _ _ _ h).2⟩

/-- C5: `Plane3::PointOfIntersection` is empty exactly when the signed `dot(n, d)` is
below `EPSILON`; whenever `dot(n, d) ≤ -EPSILON` the plane and the line are not parallel,
the result is empty, and the same line with direction `-d` gives a point; the plane
`((-2/5, 0, 0), (5, -6, 4))` and the line `((1, 2, 0), (1, -1, -3))` are such a pair. -/
theorem C5_plane_pointOfIntersection_signed_test :
    (∀ (P : Plane3 α) (L : Line3 α),
      P.PointOfIntersection L = none ↔ P.normal.DotProduct L.direction < EPSILON)
    ∧ (∀ (P : Plane3 α) (L : Line3 α),
        P.normal.DotProduct L.direction ≤ -EPSILON →
        P.IsParallelToLine L = false
        ∧ P.PointOfIntersection L = none
        ∧ (P.PointOfIntersection ⟨L.point, L.direction.neg⟩).isSome = true)
    ∧ ∃ (P : Plane3 α) (L : Line3 α),
        P.normal.DotProduct L.direction ≤ -EPSILON
        ∧ P.IsParallelToLine L = false
        ∧ P.PointOfIntersection L = none
        ∧ (P.PointOfIntersection ⟨L.point, L.direction.neg⟩).isSome = true := by
  have h1 : ∀ (P : Plane3 α) (L : Line3 α),
      P.PointOfIntersection L = none ↔ P.normal.DotProduct L.direction < EPSILON := by
    intro P L
    unfold Plane3.PointOfIntersection
    simp only
    split_ifs with hd
    · simp [hd]
    · simp [hd]
  have h2 : ∀ (P : Plane3 α) (L : Line3 α),
      P.normal.DotProduct L.direction ≤ -EPSILON →
      P.IsParallelToLine L = false
      ∧ P.PointOfIntersection L = none
      ∧ (P.PointOfIntersection ⟨L.point, L.direction.neg⟩).isSome = true := by
    intro P L hd
    have he : (0 : α) < EPSILON := EPSILON_pos
    refine ⟨?_, (h1 P L).mpr (by linarith), ?_⟩
    · simp only [Plane3.IsParallelToLine, Vector3.IsOrthogonalTo, decide_eq_false_iff_not,
        not_lt]
      rw [abs_of_nonpos (by linarith)]
      linarith
    · rw [Option.isSome_iff_ne_none, Ne, h1, not_lt]
      have hn : P.normal.DotProduct (L.direction.neg) = -P.normal.DotProduct L.direction := by
        simp only [Vector3.DotProduct, Vector3.neg]; ring
      rw [hn]
      linarith
  refine ⟨h1, h2, ⟨⟨-2 / 5, 0, 0⟩, ⟨5, -6, 4⟩⟩, ⟨⟨1, 2, 0⟩, ⟨1, -1, -3⟩⟩, ?_⟩
  have hd : (⟨5, -6, 4⟩ : Vector3 α).DotProduct ⟨1, -1, -3⟩ ≤ -EPSILON := by
    norm_num [Vector3.DotProduct, EPSILON]
  exact ⟨hd, h2 _ _ hd⟩

/-- Witness for C5: the plane `((0, 0, 0), (0, 0, 1))` and the line through `(0, 0, 1)`
with direction `(0, 0, -1)`. -/
theorem C5_plane_pointOfIntersection_signed_test_witness :
    (⟨0, 0, 1⟩ : Vector3 ℚ).DotProduct ⟨0, 0, -1⟩ ≤ -EPSILON
    ∧ Plane3.IsParallelToLine (⟨⟨0, 0, 0⟩, ⟨0, 0, 1⟩⟩ : Plane3 ℚ)
        ⟨⟨0, 0, 1⟩, ⟨0, 0, -1⟩⟩ = false
    ∧ Plane3.PointOfIntersection (⟨⟨0, 0, 0⟩, ⟨0, 0, 1⟩⟩ : Plane3 ℚ)
        ⟨⟨0, 0, 1⟩, ⟨0, 0, -1⟩⟩ = none
    ∧ (Plane3.PointOfIntersection (⟨⟨0, 0, 0⟩, ⟨0, 0, 1⟩⟩ : Plane3 ℚ)
        ⟨⟨0, 0, 1⟩, (⟨0, 0, -1⟩ : Vector3 ℚ).neg⟩).isSome = true := by
  have hd : (⟨0, 0, 1⟩ : Vector3 ℚ).DotProduct ⟨0, 0, -1⟩ ≤ -EPSILON := by
    norm_num [Vector3.DotProduct, EPSILON]
  exact ⟨hd, C5_plane_pointOfIntersection_signed_test.2.1
    (⟨⟨0, 0, 0⟩, ⟨0, 0, 1⟩⟩ : Plane3 ℚ) ⟨⟨0, 0, 1⟩, ⟨0, 0, -1⟩⟩ hd⟩

/-! ## Plane constructors (C6 to C8) -/

/-- With a component branch available, `GetClosestPointsWith` computes its parameters
without reaching the fallback branch and its assertion. -/
theorem closestParams_isSome_of_component {A B : Line3 α}
    (hc : IsZero (A.direction.CrossProduct B.direction).x = false
      ∨ IsZero (A.direction.CrossProduct B.direction).y = false
      ∨ IsZero (A.direction.CrossProduct B.direction).z = false) :
    ∃ t : α × α, Line3.closestParams A B = some t := by
  unfold Line3.closestParams
  simp only
  by_cases h1 : IsZero (A.direction.CrossProduct B.direction).x = false
  · rw [if_pos (by simp [h1])]; exact ⟨_, rfl⟩
  · rw [Bool.not_eq_false] at h1
    rw [if_neg (by simp [h1])]
    by_cases h2 : IsZero (A.direction.CrossProduct B.direction).y = false
    · rw [if_pos (by simp [h2])]; exact ⟨_, rfl⟩
    · rw [Bool.not_eq_false] at h2
      rw [if_neg (by simp [h2])]
      have h3 : IsZero (A.direction.CrossProduct B.direction).z = false := by
        rcases hc with h | h | h
        · rw [h1] at h; cases h
        · rw [h2] at h; cases h
        · exact h
      rw [if_pos (by simp [h3])]; exact ⟨_, rfl⟩

/-- The function `Line3::PointOfIntersection` never aborts. -/
theorem Line3.pointOfIntersection_ne_abort (A B : Line3 α) :
    ∃ r : Option (Point3 α), A.PointOfIntersection B = some r := by
  unfold Line3.PointOfIntersection
  by_cases hpar : A.IsParallelTo B = true
  · rw [if_pos hpar]; exact ⟨_, rfl⟩
  · rw [if_neg hpar]
    rw [Bool.not_eq_true] at hpar
    obtain ⟨t, ht⟩ := closestParams_isSome_of_component
      (exists_component_of_not_isParallelTo hpar)
    rw [Line3.GetClosestPointsWith, ht]
    exact ⟨_, rfl⟩

/-- The function `Line3::IsIntersectingWith` never aborts. -/
theorem Line3.isIntersectingWith_ne_abort (A B : Line3 α) :
    ∃ b : Bool, A.IsIntersectingWith B = some b := by
  obtain ⟨r, hr⟩ := Line3.pointOfIntersection_ne_abort A B
  rw [Line3.IsIntersectingWith, hr]
  exact ⟨_, rfl⟩

/-- C6 (defect of two `Plane3` constructors): the lines `((0,0,0),(1,0,0))` and
`((1,0,0),(1,0,0))` pass the `Line3` constructor, and `Plane3(line1, line2)` returns for
them, without an assertion, a plane whose normal is `(0,0,0)`; `Plane3(1/1000, 0, 0, 0)`
returns a plane whose normal `(1/1000, 0, 0)` is `IsZeroVector`. -/
theorem C6_plane_constructors_zero_normal :
    Line3.new (⟨0, 0, 0⟩ : Point3 α) ⟨1, 0, 0⟩ = some ⟨⟨0, 0, 0⟩, ⟨1, 0, 0⟩⟩
    ∧ Line3.new (⟨1, 0, 0⟩ : Point3 α) ⟨1, 0, 0⟩ = some ⟨⟨1, 0, 0⟩, ⟨1, 0, 0⟩⟩
    ∧ Plane3.ofLines (⟨⟨0, 0, 0⟩, ⟨1, 0, 0⟩⟩ : Line3 α) ⟨⟨1, 0, 0⟩, ⟨1, 0, 0⟩⟩
        = some ⟨⟨0, 0, 0⟩, ⟨0, 0, 0⟩⟩
    ∧ (⟨0, 0, 0⟩ : Vector3 α).IsZeroVector = true
    ∧ Plane3.ofCoefficients (1 / 1000 : α) 0 0 0 = some ⟨⟨0, 0, 0⟩, ⟨1 / 1000, 0, 0⟩⟩
    ∧ (⟨1 / 1000, 0, 0⟩ : Vector3 α).IsZeroVector = true := by
  refine ⟨?_, ?_, ?_, ?_, ?_, ?_⟩
  · norm_num [Line3.new, Assert, Vector3.IsZeroVector, Vector3.MagnitudeSquared, EPSILON]
  · norm_num [Line3.new, Assert, Vector3.IsZeroVector, Vector3.MagnitudeSquared, EPSILON]
  · norm_num [Plane3.ofLines, Vector3.CrossProduct, Point3.sub, Vector3.IsZeroVector,
      Vector3.MagnitudeSquared, EPSILON]
  · norm_num [Vector3.IsZeroVector, Vector3.MagnitudeSquared, EPSILON]
  · have ha : |(1 / 1000 : α)| = 1 / 1000 := abs_of_pos (by norm_num)
    norm_num [Plane3.ofCoefficients, IsZero, EPSILON, ha]
  · norm_num [Vector3.IsZeroVector, Vector3.MagnitudeSquared, EPSILON]

/-- C7: `Plane3(L1, L2)` aborts exactly when `L1.IsSkewTo(L2)` (which itself never
aborts); a plane it returns has `point = L1.point`, and its normal is
`cross(d1, d2)` when the directions are not parallel (the lines then intersect) and
`cross(d1, p2 - p1)` when they are parallel. -/
theorem C7_plane_of_lines (L1 L2 : Line3 α) :
    (∃ b : Bool, L1.IsSkewTo L2 = some b)
    ∧ (Plane3.ofLines L1 L2 = none ↔ L1.IsSkewTo L2 = some true)
    ∧ ∀ P : Plane3 α, Plane3.ofLines L1 L2 = some P →
        P.point = L1.point
        ∧ (L1.IsParallelTo L2 = false →
            L1.IsIntersectingWith L2 = some true
            ∧ P.normal = L1.direction.CrossProduct L2.direction)
        ∧ (L1.IsParallelTo L2 = true →
            P.normal = L1.direction.CrossProduct (L2.point.sub L1.point)) := by
  obtain ⟨b, hb⟩ := Line3.isIntersectingWith_ne_abort L1 L2
  by_cases hpar : L1.IsParallelTo L2 = true
  · have hz : (L1.direction.CrossProduct L2.direction).IsZeroVector = true := hpar
    refine ⟨⟨false, by simp [Line3.IsSkewTo, hpar]⟩, ?_, ?_⟩
    · simp [Plane3.ofLines, hz, Line3.IsSkewTo, hpar]
    · intro P hP
      simp only [Plane3.ofLines, hz, if_true, Option.some.injEq] at hP
      subst hP
      simp [hpar]
  · rw [Bool.not_eq_true] at hpar
    have hz : (L1.direction.CrossProduct L2.direction).IsZeroVector = false := hpar
    cases b with
    | true =>
      refine ⟨⟨false, by simp [Line3.IsSkewTo, hpar, hb]⟩, ?_, ?_⟩
      · simp [Plane3.ofLines, hz, Line3.IsSkewTo, hpar, hb]
      · intro P hP
        simp only [Plane3.ofLines, hz, hb, Option.some_bind, if_true, Bool.false_eq_true,
          if_false, Option.some.injEq] at hP
        subst hP
        simp [hpar, hb]
    | false =>
      refine ⟨⟨true, by simp [Line3.IsSkewTo, hpar, hb]⟩, ?_, ?_⟩
      · simp [Plane3.ofLines, hz, Line3.IsSkewTo, hpar, hb, Assert]
      · intro P hP
        simp [Plane3.ofLines, hz, hb, Assert] at hP

/-- Witness for C7: the intersecting lines `((0,0,0),(1,0,0))` and `((0,0,0),(0,1,0))` give
the plane through `(0,0,0)` with normal `(0,0,1)`. -/
theorem C7_plane_of_lines_witness :
    Plane3.ofLines (⟨⟨0, 0, 0⟩, ⟨1, 0, 0⟩⟩ : Line3 ℚ) ⟨⟨0, 0, 0⟩, ⟨0, 1, 0⟩⟩
      = some ⟨⟨0, 0, 0⟩, ⟨0, 0, 1⟩⟩
    ∧ (⟨⟨0, 0, 0⟩, ⟨0, 0, 1⟩⟩ : Plane3 ℚ).point = ⟨0, 0, 0⟩ := by
  have hp : Line3.closestParams (⟨⟨0, 0, 0⟩, ⟨1, 0, 0⟩⟩ : Line3 ℚ) ⟨⟨0, 0, 0⟩, ⟨0, 1, 0⟩⟩
      = some (0, 0) := by
    norm_num [Line3.closestParams, Vector3.CrossProduct, Point3.sub, IsZero, EPSILON]
  have hi : Line3.IsIntersectingWith (⟨⟨0, 0, 0⟩, ⟨1, 0, 0⟩⟩ : Line3 ℚ)
      ⟨⟨0, 0, 0⟩, ⟨0, 1, 0⟩⟩ = some true := by
    rw [Line3.IsIntersectingWith, Line3.PointOfIntersection, Line3.GetClosestPointsWith, hp]
    norm_num [Line3.IsParallelTo, Vector3.IsParallelTo, Vector3.CrossProduct,
      Vector3.IsZeroVector, Vector3.MagnitudeSquared, Point3.eq, Point3.add, Vector3.mul,
      EPSILON]
  have h : Plane3.ofLines (⟨⟨0, 0, 0⟩, ⟨1, 0, 0⟩⟩ : Line3 ℚ) ⟨⟨0, 0, 0⟩, ⟨0, 1, 0⟩⟩
      = some ⟨⟨0, 0, 0⟩, ⟨0, 0, 1⟩⟩ := by
    rw [Plane3.ofLines]
    simp only [hi]
    norm_num [Vector3.CrossProduct, Vector3.IsZeroVector, Vector3.MagnitudeSquared, EPSILON]
  exact ⟨h, ((C7_plane_of_lines (⟨⟨0, 0, 0⟩, ⟨1, 0, 0⟩⟩ : Line3 ℚ)
    ⟨⟨0, 0, 0⟩, ⟨0, 1, 0⟩⟩).2.2 _ h).1⟩

/-- C8: `Plane3(a, b, c, d)` aborts exactly when `|a|`, `|b|` and `|c|` are all below
`EPSILON`; otherwise the normal is `(a, b, c)`, the point is `(-d/a, 0, 0)` if
`|a| ≥ EPSILON`, else `(0, -d/b, 0)` if `|b| ≥ EPSILON`, else `(0, 0, -d/c)`, this point
satisfies `a·x + b·y + c·z + d = 0`, and `RelativeDistanceTo(r)` is `a·x + b·y + c·z + d`
at every point `r`, so `r` satisfies the equation iff `RelativeDistanceTo(r) = 0`. -/
theorem C8_plane_of_coefficients (a b c d : α) :
    (Plane3.ofCoefficients a b c d = none ↔ |a| < EPSILON ∧ |b| < EPSILON ∧ |c| < EPSILON)
    ∧ ∀ P : Plane3 α, Plane3.ofCoefficients a b c d = some P →
        P.normal = ⟨a, b, c⟩
        ∧ P.point = (if EPSILON ≤ |a| then ⟨-d / a, 0, 0⟩
                     else if EPSILON ≤ |b| then ⟨0, -d / b, 0⟩ else ⟨0, 0, -d / c⟩)
        ∧ a * P.point.x + b * P.point.y + c * P.point.z + d = 0
        ∧ ∀ r : Point3 α,
            P.RelativeDistanceTo r = a * r.x + b * r.y + c * r.z + d
            ∧ (a * r.x + b * r.y + c * r.z + d = 0 ↔ P.RelativeDistanceTo r = 0) := by
  have fin : ∀ P : Plane3 α, P.normal = ⟨a, b, c⟩ →
      a * P.point.x + b * P.point.y + c * P.point.z + d = 0 →
      ∀ r : Point3 α,
        P.RelativeDistanceTo r = a * r.x + b * r.y + c * r.z + d
        ∧ (a * r.x + b * r.y + c * r.z + d = 0 ↔ P.RelativeDistanceTo r = 0) := by
    intro P hn hp r
    have hr : P.RelativeDistanceTo r = a * r.x + b * r.y + c * r.z + d := by
      simp only [Plane3.RelativeDistanceTo, hn, Vector3.DotProduct, Point3.sub]
      linear_combination -hp
    exact ⟨hr, by rw [hr]⟩
  unfold Plane3.ofCoefficients
  simp only
  by_cases ha : IsZero a = false
  · have na := ne_zero_of_isZero_eq_false ha
    have ea := (isZero_eq_false_iff a).mp ha
    rw [if_pos (by simp [ha])]
    refine ⟨by simp [not_lt.mpr ea], ?_⟩
    intro P hP
    rw [Option.some.injEq] at hP
    subst hP
    have hp : a * (-d / a) + b * 0 + c * 0 + d = 0 := by field_simp; ring
    exact ⟨rfl, by rw [if_pos ea], hp, fin _ rfl hp⟩
  · rw [Bool.not_eq_false] at ha
    have ea := (isZero_eq_true_iff a).mp ha
    rw [if_neg (by simp [ha])]
    by_cases hb : IsZero b = false
    · have nb := ne_zero_of_isZero_eq_false hb
      have eb := (isZero_eq_false_iff b).mp hb
      rw [if_pos (by simp [hb])]
      refine ⟨by simp [not_lt.mpr eb], ?_⟩
      intro P hP
      rw [Option.some.injEq] at hP
      subst hP
      have hp : a * 0 + b * (-d / b) + c * 0 + d = 0 := by field_simp; ring
      exact ⟨rfl, by rw [if_neg (not_le.mpr ea), if_pos eb], hp, fin _ rfl hp⟩
    · rw [Bool.not_eq_false] at hb
      have eb := (isZero_eq_true_iff b).mp hb
      rw [if_neg (by simp [hb])]
      by_cases hc : IsZero c = false
      · have nc := ne_zero_of_isZero_eq_false hc
        have ec := (isZero_eq_false_iff c).mp hc
        rw [if_pos (by simp [hc])]
        refine ⟨by simp [not_lt.mpr ec], ?_⟩
        intro P hP
        rw [Option.some.injEq] at hP
        subst hP
        have hp : a * 0 + b * 0 + c * (-d / c) + d = 0 := by field_simp; ring
        exact ⟨rfl, by rw [if_neg (not_le.mpr ea), if_neg (not_le.mpr eb)], hp,
          fin _ rfl hp⟩
      · rw [Bool.not_eq_false] at hc
        have ec := (isZero_eq_true_iff c).mp hc
        rw [if_neg (by simp [hc])]
        refine ⟨by simp [Assert, ea, eb, ec], ?_⟩
        intro P hP
        simp [Assert] at hP

/-- Witness for C8: the plane `5x - 6y + 4z + 2 = 0` of the demo program. -/
theorem C8_plane_of_coefficients_witness :
    Plane3.ofCoefficients (5 : ℚ) (-6) 4 2 = some ⟨⟨-2 / 5, 0, 0⟩, ⟨5, -6, 4⟩⟩
    ∧ (5 : ℚ) * (-2 / 5) + (-6) * 0 + 4 * 0 + 2 = 0 := by
  have h : Plane3.ofCoefficients (5 : ℚ) (-6) 4 2 = some ⟨⟨-2 / 5, 0, 0⟩, ⟨5, -6, 4⟩⟩ := by
    norm_num [Plane3.ofCoefficients, IsZero, EPSILON]
  exact ⟨h, ((C8_plane_of_coefficients (5 : ℚ) (-6) 4 2).2 _ h).2.2.1⟩

/-! ## Line equality (C9, C10) -/

/-- The squared magnitude of the cross product does not depend on the order. -/
theorem Vector3.magnitudeSquared_crossProduct_comm (a b : Vector3 α) :
    (a.CrossProduct b).MagnitudeSquared = (b.CrossProduct a).MagnitudeSquared := by
  simp only [Vector3.CrossProduct, Vector3.MagnitudeSquared]; ring

/-- The function `Vector3::IsParallelTo` is symmetric. -/
theorem Vector3.isParallelTo_comm (a b : Vector3 α) : a.IsParallelTo b = b.IsParallelTo a := by
  simp only [Vector3.IsParallelTo, Vector3.IsZeroVector,
    Vector3.magnitudeSquared_crossProduct_comm a b]

/-- Scaling the direction by `k` scales the squared magnitude that `IsPointOnLine` of the
other line tests by `k²`. -/
theorem Vector3.magnitudeSquared_crossProduct_mul (d : Vector3 α) (k : α) (p q : Point3 α) :
    ((d.mul k).CrossProduct (p.sub q)).MagnitudeSquared
      = k * k * (d.CrossProduct (q.sub p)).MagnitudeSquared := by
  simp only [Vector3.CrossProduct, Vector3.MagnitudeSquared, Vector3.mul, Point3.sub]; ring

/-- The squared magnitude is not negative. -/
theorem Vector3.magnitudeSquared_nonneg (v : Vector3 α) : 0 ≤ v.MagnitudeSquared := by
  unfold Vector3.MagnitudeSquared
  have h1 := mul_self_nonneg v.x
  have h2 := mul_self_nonneg v.y
  have h3 := mul_self_nonneg v.z
  linarith

/-- C9 (counterexample): the lines `A = ((0,0,0),(1,0,0))` and
`B = ((0,1/1000,0),(1000,0,0))` both satisfy the Line invariant, `A == B` holds and
`B == A` does not. -/
theorem C9_line_eq_not_symmetric :
    (⟨1, 0, 0⟩ : Vector3 ℚ).IsZeroVector = false
    ∧ (⟨1000, 0, 0⟩ : Vector3 ℚ).IsZeroVector = false
    ∧ Line3.eq (⟨⟨0, 0, 0⟩, ⟨1, 0, 0⟩⟩ : Line3 ℚ) ⟨⟨0, 1 / 1000, 0⟩, ⟨1000, 0, 0⟩⟩ = true
    ∧ Line3.eq (⟨⟨0, 1 / 1000, 0⟩, ⟨1000, 0, 0⟩⟩ : Line3 ℚ) ⟨⟨0, 0, 0⟩, ⟨1, 0, 0⟩⟩ = false := by
  refine ⟨?_, ?_, ?_, ?_⟩
  · norm_num [Vector3.IsZeroVector, Vector3.MagnitudeSquared, EPSILON]
  · norm_num [Vector3.IsZeroVector, Vector3.MagnitudeSquared, EPSILON]
  · norm_num [Line3.eq, Line3.IsPointOnLine, Vector3.IsParallelTo, Vector3.CrossProduct,
      Point3.sub, Vector3.IsZeroVector, Vector3.MagnitudeSquared, EPSILON]
  · norm_num [Line3.eq, Line3.IsPointOnLine, Vector3.IsParallelTo, Vector3.CrossProduct,
      Point3.sub, Vector3.IsZeroVector, Vector3.MagnitudeSquared, EPSILON]

/-- C9 (amended): the direction test of `Line3::operator==` is symmetric for all lines;
when `B.direction = k·A.direction` with `k² ≤ 1`, `A == B` implies `B == A`; and when
`k² = 1`, i.e. the directions are equal or opposite, `A == B` holds iff `B == A` holds. -/
theorem C9_line_eq_symmetric_same_scale (A B : Line3 α) :
    A.direction.IsParallelTo B.direction = B.direction.IsParallelTo A.direction
    ∧ (∀ k : α, B.direction = A.direction.mul k → k * k ≤ 1 →
        A.eq B = true → B.eq A = true)
    ∧ (∀ k : α, B.direction = A.direction.mul k → k * k = 1 →
        (A.eq B = true ↔ B.eq A = true)) := by
  have hpar := Vector3.isParallelTo_comm A.direction B.direction
  have key : ∀ k : α, B.direction = A.direction.mul k →
      (B.IsPointOnLine A.point = true
        ↔ k * k * (A.direction.CrossProduct (B.point.sub A.point)).MagnitudeSquared
            < EPSILON) := by
    intro k hk
    simp only [Line3.IsPointOnLine, Vector3.IsParallelTo, Vector3.IsZeroVector, hk,
      Vector3.magnitudeSquared_crossProduct_mul, decide_eq_true_eq]
  have keyA : A.IsPointOnLine B.point = true
      ↔ (A.direction.CrossProduct (B.point.sub A.point)).MagnitudeSquared < EPSILON := by
    simp only [Line3.IsPointOnLine, Vector3.IsParallelTo, Vector3.IsZeroVector,
      decide_eq_true_eq]
  refine ⟨hpar, ?_, ?_⟩
  · intro k hk hk1 h
    simp only [Line3.eq, Bool.and_eq_true] at h ⊢
    refine ⟨(key k hk).mpr ?_, hpar ▸ h.2⟩
    have h1 := keyA.mp h.1
    have h0 := Vector3.magnitudeSquared_nonneg
      (A.direction.CrossProduct (B.point.sub A.point))
    nlinarith
  · intro k hk hk1
    simp only [Line3.eq, Bool.and_eq_true, key k hk, keyA, hk1, one_mul, hpar]

/-- Witness for C9 (amended): the line `((0,0,0),(1,0,0))` and the same line given as
`((3,0,0),(-1,0,0))`. -/
theorem C9_line_eq_symmetric_same_scale_witness :
    (Line3.eq (⟨⟨0, 0, 0⟩, ⟨1, 0, 0⟩⟩ : Line3 ℚ) ⟨⟨3, 0, 0⟩, ⟨-1, 0, 0⟩⟩ = true
      ↔ Line3.eq (⟨⟨3, 0, 0⟩, ⟨-1, 0, 0⟩⟩ : Line3 ℚ) ⟨⟨0, 0, 0⟩, ⟨1, 0, 0⟩⟩ = true)
    ∧ Line3.eq (⟨⟨3, 0, 0⟩, ⟨-1, 0, 0⟩⟩ : Line3 ℚ) ⟨⟨0, 0, 0⟩, ⟨1, 0, 0⟩⟩ = true := by
  have h := (C9_line_eq_symmetric_same_scale (⟨⟨0, 0, 0⟩, ⟨1, 0, 0⟩⟩ : Line3 ℚ)
    ⟨⟨3, 0, 0⟩, ⟨-1, 0, 0⟩⟩).2
  have hk : (⟨-1, 0, 0⟩ : Vector3 ℚ) = Vector3.mul ⟨1, 0, 0⟩ (-1) := by
    norm_num [Vector3.mul]
  have hA : Line3.eq (⟨⟨0, 0, 0⟩, ⟨1, 0, 0⟩⟩ : Line3 ℚ) ⟨⟨3, 0, 0⟩, ⟨-1, 0, 0⟩⟩ = true := by
    norm_num [Line3.eq, Line3.IsPointOnLine, Vector3.IsParallelTo, Vector3.CrossProduct,
      Point3.sub, Vector3.IsZeroVector, Vector3.MagnitudeSquared, EPSILON]
  exact ⟨h.2 (-1) hk (by norm_num), h.1 (-1) hk (by norm_num) hA⟩

/-- C10: for a line `L = (p, d)` and scalars `t`, `k`, a line `(p + t·d, k·d)` accepted
by the `Line3` constructor is equal to `L` in both orders; `L == L`; and every point
`p + t·d` satisfies `L.IsPointOnLine`. -/
theorem C10_line_eq_representation_independent (L : Line3 α) :
    (∀ (t k : α) (M : Line3 α),
      Line3.new (L.point.add (L.direction.mul t)) (L.direction.mul k) = some M →
      L.eq M = true ∧ M.eq L = true)
    ∧ L.eq L = true
    ∧ ∀ t : α, L.IsPointOnLine (L.point.add (L.direction.mul t)) = true := by
  have hz : ∀ v : Vector3 α, v.MagnitudeSquared = 0 → v.IsZeroVector = true := by
    intro v hv
    rw [isZeroVector_eq_true_iff, hv]
    exact EPSILON_pos
  have hpt : ∀ t : α, L.IsPointOnLine (L.point.add (L.direction.mul t)) = true := by
    intro t
    apply hz
    simp only [Vector3.CrossProduct, Vector3.MagnitudeSquared, Vector3.mul, Point3.sub,
      Point3.add]
    ring
  have hdir : ∀ k : α, L.direction.IsParallelTo (L.direction.mul k) = true := by
    intro k
    apply hz
    simp only [Vector3.CrossProduct, Vector3.MagnitudeSquared, Vector3.mul]
    ring
  have hself : L.eq L = true := by
    simp only [Line3.eq, Bool.and_eq_true]
    constructor
    · apply hz
      simp only [Vector3.CrossProduct, Vector3.MagnitudeSquared, Point3.sub]
      ring
    · apply hz
      simp only [Vector3.CrossProduct, Vector3.MagnitudeSquared]
      ring
  refine ⟨?_, hself, hpt⟩
  intro t k M hM
  have hM2 : M = ⟨L.point.add (L.direction.mul t), L.direction.mul k⟩ := by
    unfold Line3.new Assert at hM
    split_ifs at hM
    · simp only [Option.map_some', Option.some.injEq] at hM
      exact hM.symm
    · simp at hM
  subst hM2
  simp only [Line3.eq, Bool.and_eq_true]
  refine ⟨⟨hpt t, hdir k⟩, ?_, ?_⟩
  · apply hz
    simp only [Vector3.CrossProduct, Vector3.MagnitudeSquared, Vector3.mul, Point3.sub,
      Point3.add]
    ring
  · rw [Vector3.isParallelTo_comm]; exact hdir k

/-- Witness for C10: the line `((1,2,0),(-1,1,3))` of the demo program given again from
its point at `t = 2` with the direction scaled by `-3`. -/
theorem C10_line_eq_representation_independent_witness :
    Line3.new (Point3.add (⟨1, 2, 0⟩ : Point3 ℚ) (Vector3.mul ⟨-1, 1, 3⟩ 2))
        (Vector3.mul ⟨-1, 1, 3⟩ (-3)) = some ⟨⟨-1, 4, 6⟩, ⟨3, -3, -9⟩⟩
    ∧ Line3.eq (⟨⟨1, 2, 0⟩, ⟨-1, 1, 3⟩⟩ : Line3 ℚ) ⟨⟨-1, 4, 6⟩, ⟨3, -3, -9⟩⟩ = true
    ∧ Line3.eq (⟨⟨-1, 4, 6⟩, ⟨3, -3, -9⟩⟩ : Line3 ℚ) ⟨⟨1, 2, 0⟩, ⟨-1, 1, 3⟩⟩ = true := by
  have h : Line3.new (Point3.add (⟨1, 2, 0⟩ : Point3 ℚ) (Vector3.mul ⟨-1, 1, 3⟩ 2))
      (Vector3.mul ⟨-1, 1, 3⟩ (-3)) = some ⟨⟨-1, 4, 6⟩, ⟨3, -3, -9⟩⟩ := by
    norm_num [Line3.new, Assert, Point3.add, Vector3.mul, Vector3.IsZeroVector,
      Vector3.MagnitudeSquared, EPSILON]
  exact ⟨h, (C10_line_eq_representation_independent
    (⟨⟨1, 2, 0⟩, ⟨-1, 1, 3⟩⟩ : Line3 ℚ)).1 2 (-3) _ h⟩

/-! ## Plane equality and parallel lines (C11, C14) -/

/-- A vector whose squared magnitude is exactly zero is `IsZeroVector`. -/
theorem isZeroVector_of_magnitudeSquared_eq_zero {v : Vector3 α}
    (h : v.MagnitudeSquared = 0) : v.IsZeroVector = true := by
  rw [isZeroVector_eq_true_iff, h]
  exact EPSILON_pos

/-- A scalar that is exactly zero is `IsZero`. -/
theorem isZero_of_eq_zero {value : α} (h : value = 0) : IsZero value = true := by
  rw [isZero_eq_true_iff, h, abs_zero]
  exact EPSILON_pos

/-- C11: for a plane `P = (q, n)`, a point `r` with `dot(n, r - q) = 0` and a scalar
`k ≠ 0`, a plane `(r, k·n)` accepted by the `Plane3` constructor is equal to `P` in both
orders; with `r = q` and `k = 1` this is `P == P`. -/
theorem C11_plane_eq_representation_independent (P : Plane3 α) :
    (∀ (r : Point3 α) (k : α) (Q : Plane3 α),
      P.normal.DotProduct (r.sub P.point) = 0 → k ≠ 0 →
      Plane3.new r (P.normal.mul k) = some Q →
      P.eq Q = true ∧ Q.eq P = true)
    ∧ P.eq P = true := by
  have hself : P.eq P = true := by
    simp only [Plane3.eq, Bool.and_eq_true, Plane3.IsPointInPlane, Vector3.IsParallelTo]
    constructor
    · apply isZero_of_eq_zero
      simp only [Plane3.RelativeDistanceTo, Vector3.DotProduct, Point3.sub]
      ring
    · apply isZeroVector_of_magnitudeSquared_eq_zero
      simp only [Vector3.CrossProduct, Vector3.MagnitudeSquared]
      ring
  refine ⟨?_, hself⟩
  intro r k Q hr _ hQ
  have hQ2 : Q = ⟨r, P.normal.mul k⟩ := by
    unfold Plane3.new Assert at hQ
    split_ifs at hQ
    · simp only [Option.map_some', Option.some.injEq] at hQ
      exact hQ.symm
    · simp at hQ
  subst hQ2
  simp only [Plane3.eq, Bool.and_eq_true, Plane3.IsPointInPlane, Vector3.IsParallelTo]
  refine ⟨⟨?_, ?_⟩, ?_, ?_⟩
  · exact isZero_of_eq_zero hr
  · apply isZeroVector_of_magnitudeSquared_eq_zero
    simp only [Vector3.CrossProduct, Vector3.MagnitudeSquared, Vector3.mul]
    ring
  · apply isZero_of_eq_zero
    simp only [Plane3.RelativeDistanceTo, Vector3.DotProduct, Point3.sub, Vector3.mul] at hr ⊢
    linear_combination (-k) * hr
  · apply isZeroVector_of_magnitudeSquared_eq_zero
    simp only [Vector3.CrossProduct, Vector3.MagnitudeSquared, Vector3.mul]
    ring

/-- Witness for C11: the plane `x + y + z = 1` through `(1,0,0)` given again through
`(0,0,1)` with the opposite normal scaled by two. -/
theorem C11_plane_eq_representation_independent_witness :
    Plane3.eq (⟨⟨1, 0, 0⟩, ⟨1, 1, 1⟩⟩ : Plane3 ℚ) ⟨⟨0, 0, 1⟩, ⟨-2, -2, -2⟩⟩ = true
    ∧ Plane3.eq (⟨⟨0, 0, 1⟩, ⟨-2, -2, -2⟩⟩ : Plane3 ℚ) ⟨⟨1, 0, 0⟩, ⟨1, 1, 1⟩⟩ = true := by
  have h : Plane3.new (⟨0, 0, 1⟩ : Point3 ℚ) (Vector3.mul ⟨1, 1, 1⟩ (-2))
      = some ⟨⟨0, 0, 1⟩, ⟨-2, -2, -2⟩⟩ := by
    norm_num [Plane3.new, Assert, Vector3.mul, Vector3.IsZeroVector,
      Vector3.MagnitudeSquared, EPSILON]
  exact (C11_plane_eq_representation_independent (⟨⟨1, 0, 0⟩, ⟨1, 1, 1⟩⟩ : Plane3 ℚ)).1
    ⟨0, 0, 1⟩ (-2) _ (by norm_num [Vector3.DotProduct, Point3.sub]) (by norm_num) h

/-- C14: for parallel lines `PointOfIntersection` is empty and `IsIntersectingWith` is
false, whether or not the lines are coincident; every line is parallel to itself, so
`L.PointOfIntersection(L)` is empty. -/
theorem C14_parallel_lines_do_not_intersect :
    (∀ A B : Line3 α, A.IsParallelTo B = true →
      A.PointOfIntersection B = some none ∧ A.IsIntersectingWith B = some false)
    ∧ (∀ L : Line3 α, L.IsParallelTo L = true ∧ L.eq L = true
        ∧ L.PointOfIntersection L = some none ∧ L.IsIntersectingWith L = some false) := by
  have main : ∀ A B : Line3 α, A.IsParallelTo B = true →
      A.PointOfIntersection B = some none ∧ A.IsIntersectingWith B = some false := by
    intro A B h
    have hp : A.PointOfIntersection B = some none := by
      rw [Line3.PointOfIntersection, if_pos h]
    exact ⟨hp, by rw [Line3.IsIntersectingWith, hp]; rfl⟩
  refine ⟨main, fun L => ?_⟩
  have hpar : L.IsParallelTo L = true := by
    apply isZeroVector_of_magnitudeSquared_eq_zero
    simp only [Vector3.CrossProduct, Vector3.MagnitudeSquared]
    ring
  have hon : L.IsPointOnLine L.point = true := by
    apply isZeroVector_of_magnitudeSquared_eq_zero
    simp only [Vector3.CrossProduct, Vector3.MagnitudeSquared, Point3.sub]
    ring
  refine ⟨hpar, ?_, main L L hpar⟩
  simp only [Line3.eq, Bool.and_eq_true]
  exact ⟨hon, hpar⟩

/-- Witness for C14: the distinct parallel lines `((0,0,0),(1,0,0))` and
`((0,1,0),(2,0,0))`. -/
theorem C14_parallel_lines_do_not_intersect_witness :
    Line3.IsParallelTo (⟨⟨0, 0, 0⟩, ⟨1, 0, 0⟩⟩ : Line3 ℚ) ⟨⟨0, 1, 0⟩, ⟨2, 0, 0⟩⟩ = true
    ∧ Line3.PointOfIntersection (⟨⟨0, 0, 0⟩, ⟨1, 0, 0⟩⟩ : Line3 ℚ) ⟨⟨0, 1, 0⟩, ⟨2, 0, 0⟩⟩
        = some none
    ∧ Line3.IsIntersectingWith (⟨⟨0, 0, 0⟩, ⟨1, 0, 0⟩⟩ : Line3 ℚ) ⟨⟨0, 1, 0⟩, ⟨2, 0, 0⟩⟩
        = some false := by
  have h : Line3.IsParallelTo (⟨⟨0, 0, 0⟩, ⟨1, 0, 0⟩⟩ : Line3 ℚ)
      ⟨⟨0, 1, 0⟩, ⟨2, 0, 0⟩⟩ = true := by
    norm_num [Line3.IsParallelTo, Vector3.IsParallelTo, Vector3.CrossProduct,
      Vector3.IsZeroVector, Vector3.MagnitudeSquared, EPSILON]
  exact ⟨h, C14_parallel_lines_do_not_intersect.1 _ _ h⟩

/-! ## Cross product and symmetry of the predicates (C18, C20) -/

/-- The test `IsZero` does not see the sign. -/
theorem isZero_neg (value : α) : IsZero (-value) = IsZero value := by
  simp only [IsZero, abs_neg]

/-- The operator `Point3::operator==` is symmetric. -/
theorem Point3.eq_comm (p q : Point3 α) : p.eq q = q.eq p := by
  simp only [Point3.eq, abs_sub_comm p.x q.x, abs_sub_comm p.y q.y, abs_sub_comm p.z q.z]

/-- The function `Vector3::IsOrthogonalTo` is symmetric. -/
theorem Vector3.isOrthogonalTo_comm (a b : Vector3 α) :
    a.IsOrthogonalTo b = b.IsOrthogonalTo a := by
  have h : a.DotProduct b = b.DotProduct a := by
    simp only [Vector3.DotProduct]; ring
  simp only [Vector3.IsOrthogonalTo, h]

/-- With a component branch available, exchanging the two lines exchanges the two
parameters computed by `GetClosestPointsWith`. -/
theorem closestParams_swap {A B : Line3 α}
    (hc : IsZero (A.direction.CrossProduct B.direction).x = false
      ∨ IsZero (A.direction.CrossProduct B.direction).y = false
      ∨ IsZero (A.direction.CrossProduct B.direction).z = false) :
    Line3.closestParams B A = (Line3.closestParams A B).map Prod.swap := by
  obtain ⟨⟨p1x, p1y, p1z⟩, ⟨d1x, d1y, d1z⟩⟩ := A
  obtain ⟨⟨p2x, p2y, p2z⟩, ⟨d2x, d2y, d2z⟩⟩ := B
  simp only [Vector3.CrossProduct] at hc
  have ex : d2y * d1z - d2z * d1y = -(d1y * d2z - d1z * d2y) := by ring
  have ey : d2z * d1x - d2x * d1z = -(d1z * d2x - d1x * d2z) := by ring
  have ez : d2x * d1y - d2y * d1x = -(d1x * d2y - d1y * d2x) := by ring
  simp only [Line3.closestParams, Vector3.CrossProduct, Point3.sub, ex, ey, ez, isZero_neg]
  by_cases h1 : IsZero (d1y * d2z - d1z * d2y) = false
  · have n1 := ne_zero_of_isZero_eq_false h1
    simp only [h1, Bool.not_false, if_true, Option.map_some', Prod.swap_prod_mk,
      Option.some.injEq, Prod.mk.injEq, div_neg]
    constructor <;> (field_simp; ring)
  · rw [Bool.not_eq_false] at h1
    by_cases h2 : IsZero (d1z * d2x - d1x * d2z) = false
    · have n2 := ne_zero_of_isZero_eq_false h2
      simp only [h1, h2, Bool.not_true, Bool.not_false, if_true, Bool.false_eq_true,
        if_false, Option.map_some', Prod.swap_prod_mk, Option.some.injEq, Prod.mk.injEq,
        div_neg, neg_neg]
      constructor <;> (field_simp; ring)
    · rw [Bool.not_eq_false] at h2
      have h3 : IsZero (d1x * d2y - d1y * d2x) = false := by
        rcases hc with h | h | h
        · rw [h1] at h; cases h
        · rw [h2] at h; cases h
        · exact h
      have n3 := ne_zero_of_isZero_eq_false h3
      simp only [h1, h2, h3, Bool.not_true, Bool.not_false, if_true, Bool.false_eq_true,
        if_false, Option.map_some', Prod.swap_prod_mk, Option.some.injEq, Prod.mk.injEq,
        div_neg]
      constructor <;> (field_simp; ring)

/-- The function `Line3::IsParallelTo` is symmetric. -/
theorem Line3.lines_isParallelTo_comm (A B : Line3 α) : A.IsParallelTo B = B.IsParallelTo A :=
  Vector3.isParallelTo_comm A.direction B.direction

/-- The function `Line3::IsIntersectingWith` is symmetric. -/
theorem Line3.isIntersectingWith_comm (A B : Line3 α) :
    A.IsIntersectingWith B = B.IsIntersectingWith A := by
  have hpc := Line3.lines_isParallelTo_comm A B
  by_cases hpar : A.IsParallelTo B = true
  · have hpar2 : B.IsParallelTo A = true := hpc ▸ hpar
    simp only [Line3.IsIntersectingWith, Line3.PointOfIntersection, hpar, hpar2, if_true]
  · rw [Bool.not_eq_true] at hpar
    have hpar2 : B.IsParallelTo A = false := hpc ▸ hpar
    have hc := exists_component_of_not_isParallelTo hpar
    obtain ⟨t, ht⟩ := closestParams_isSome_of_component hc
    have hs := closestParams_swap hc
    rw [ht] at hs
    simp only [Line3.IsIntersectingWith, Line3.PointOfIntersection, hpar, hpar2,
      Line3.GetClosestPointsWith, ht, hs, Option.map_some', Prod.swap, Bool.false_eq_true,
      if_false, Option.some.injEq]
    rw [Point3.eq_comm]
    split_ifs <;> rfl

/-- C18: the cross product of `a` and `b` has dot product exactly `0` with `a` and with
`b`, so `IsOrthogonalTo` holds for both; it is the unary minus of the cross product of `b`
and `a`; and the cross product of `(1,0,0)` and `(0,1,0)` is `(0,0,1)`. -/
theorem C18_crossProduct_orthogonal_anticommutative :
    (∀ a b : Vector3 α,
      (a.CrossProduct b).DotProduct a = 0
      ∧ (a.CrossProduct b).DotProduct b = 0
      ∧ (a.CrossProduct b).IsOrthogonalTo a = true
      ∧ (a.CrossProduct b).IsOrthogonalTo b = true
      ∧ a.CrossProduct b = (b.CrossProduct a).neg)
    ∧ (⟨1, 0, 0⟩ : Vector3 α).CrossProduct ⟨0, 1, 0⟩ = ⟨0, 0, 1⟩ := by
  constructor
  · intro a b
    have h1 : (a.CrossProduct b).DotProduct a = 0 := by
      simp only [Vector3.CrossProduct, Vector3.DotProduct]; ring
    have h2 : (a.CrossProduct b).DotProduct b = 0 := by
      simp only [Vector3.CrossProduct, Vector3.DotProduct]; ring
    refine ⟨h1, h2, ?_, ?_, ?_⟩
    · simp only [Vector3.IsOrthogonalTo, h1, abs_zero, EPSILON_pos, decide_True]
    · simp only [Vector3.IsOrthogonalTo, h2, abs_zero, EPSILON_pos, decide_True]
    · simp only [Vector3.CrossProduct, Vector3.neg, Vector3.mk.injEq]
      refine ⟨?_, ?_, ?_⟩ <;> ring
  · norm_num [Vector3.CrossProduct]

/-- C20: `IsParallelTo` and `IsOrthogonalTo` of vectors are symmetric, and so are
`IsParallelTo`, `IsIntersectingWith` and `IsOrthogonalTo` of lines. -/
theorem C20_predicates_symmetric :
    (∀ a b : Vector3 α,
      a.IsParallelTo b = b.IsParallelTo a ∧ a.IsOrthogonalTo b = b.IsOrthogonalTo a)
    ∧ (∀ A B : Line3 α,
      A.IsParallelTo B = B.IsParallelTo A
      ∧ A.IsIntersectingWith B = B.IsIntersectingWith A
      ∧ A.IsOrthogonalTo B = B.IsOrthogonalTo A) := by
  refine ⟨fun a b => ⟨Vector3.isParallelTo_comm a b, Vector3.isOrthogonalTo_comm a b⟩,
    fun A B => ⟨Line3.lines_isParallelTo_comm A B, Line3.isIntersectingWith_comm A B, ?_⟩⟩
  simp only [Line3.IsOrthogonalTo, Vector3.isOrthogonalTo_comm A.direction B.direction,
    Line3.isIntersectingWith_comm A B]

/-! ## Magnitudes over the reals (C12, C19) -/

/-- The square root of a real number that is not below the tolerance exceeds the
tolerance: the magnitude assertions hold for vectors that are not `IsZeroVector`. -/
theorem EPSILON_lt_sqrt {x : ℝ} (h : EPSILON ≤ x) : EPSILON < Real.sqrt x := by
  rw [Real.lt_sqrt (le_of_lt EPSILON_pos)]
  have he : (EPSILON : ℝ) ^ 2 < EPSILON := by unfold EPSILON; norm_num
  linarith

/-- An assertion whose condition holds does not abort. -/
theorem assert_of_true {condition : Bool} (h : condition = true) : Assert condition = some () := by
  rw [Assert, if_pos h]

/-- C19: for a real vector `v` that is not `IsZeroVector`, `Normalized` returns without
tripping its assertion a vector `n` of magnitude exactly `1`, the magnitude of `v` is
positive, and `v` is `n` scaled by the magnitude of `v`. -/
theorem C19_normalized_unit (v : Vector3 ℝ) (h : v.IsZeroVector = false) :
    ∃ n : Vector3 ℝ,
      v.Normalized Real.sqrt = some n
      ∧ n.Magnitude Real.sqrt = 1
      ∧ 0 < v.Magnitude Real.sqrt
      ∧ v = n.mul (v.Magnitude Real.sqrt) := by
  rw [isZeroVector_eq_false_iff] at h
  have hm := EPSILON_lt_sqrt h
  have hpos : 0 < Real.sqrt v.MagnitudeSquared := lt_trans EPSILON_pos hm
  have hne : Real.sqrt v.MagnitudeSquared ≠ 0 := ne_of_gt hpos
  have hM : 0 ≤ v.MagnitudeSquared := Vector3.magnitudeSquared_nonneg v
  have hsq : Real.sqrt v.MagnitudeSquared * Real.sqrt v.MagnitudeSquared
      = v.MagnitudeSquared := Real.mul_self_sqrt hM
  refine ⟨⟨v.x / Real.sqrt v.MagnitudeSquared, v.y / Real.sqrt v.MagnitudeSquared,
    v.z / Real.sqrt v.MagnitudeSquared⟩, ?_, ?_, hpos, ?_⟩
  · simp only [Vector3.Normalized, Vector3.Magnitude,
      assert_of_true (decide_eq_true (show Real.sqrt v.MagnitudeSquared > EPSILON from hm)),
      Option.map_some']
  · have h1 : (⟨v.x / Real.sqrt v.MagnitudeSquared, v.y / Real.sqrt v.MagnitudeSquared,
        v.z / Real.sqrt v.MagnitudeSquared⟩ : Vector3 ℝ).MagnitudeSquared = 1 := by
      show v.x / Real.sqrt v.MagnitudeSquared * (v.x / Real.sqrt v.MagnitudeSquared)
        + v.y / Real.sqrt v.MagnitudeSquared * (v.y / Real.sqrt v.MagnitudeSquared)
        + v.z / Real.sqrt v.MagnitudeSquared * (v.z / Real.sqrt v.MagnitudeSquared) = 1
      rw [div_mul_div_comm, div_mul_div_comm, div_mul_div_comm, ← add_div, ← add_div, hsq]
      exact div_self (ne_of_gt (lt_of_lt_of_le EPSILON_pos h))
    rw [Vector3.Magnitude, h1, Real.sqrt_one]
  · obtain ⟨x, y, z⟩ := v
    simp only [Vector3.mul, Vector3.Magnitude, Vector3.mk.injEq]
    refine ⟨?_, ?_, ?_⟩ <;> field_simp

/-- Witness for C19: the vector `(3, 0, 4)`. -/
theorem C19_normalized_unit_witness :
    (⟨3, 0, 4⟩ : Vector3 ℝ).IsZeroVector = false
    ∧ ∃ n : Vector3 ℝ,
        (⟨3, 0, 4⟩ : Vector3 ℝ).Normalized Real.sqrt = some n
        ∧ n.Magnitude Real.sqrt = 1 := by
  have h : (⟨3, 0, 4⟩ : Vector3 ℝ).IsZeroVector = false := by
    norm_num [Vector3.IsZeroVector, Vector3.MagnitudeSquared, EPSILON]
  obtain ⟨n, h1, h2, _⟩ := C19_normalized_unit ⟨3, 0, 4⟩ h
  exact ⟨h, n, h1, h2⟩

/-- C12 (counterexample): the line `((0,0,0),(1,0,0))` satisfies the Line invariant and the
point `(0, 1/1000, 0)` is at distance `1/1000`, not `0`, while `IsPointOnLine` is true. -/
theorem C12_point_on_line_at_positive_distance :
    (⟨1, 0, 0⟩ : Vector3 ℝ).IsZeroVector = false
    ∧ Line3.DistanceToPoint Real.sqrt (⟨⟨0, 0, 0⟩, ⟨1, 0, 0⟩⟩ : Line3 ℝ) ⟨0, 1 / 1000, 0⟩
        = some (1 / 1000)
    ∧ Line3.IsPointOnLine (⟨⟨0, 0, 0⟩, ⟨1, 0, 0⟩⟩ : Line3 ℝ) ⟨0, 1 / 1000, 0⟩ = true := by
  have hs : Real.sqrt (1 / 1000000) = 1 / 1000 := by
    rw [show (1 / 1000000 : ℝ) = (1 / 1000) ^ 2 by norm_num]
    exact Real.sqrt_sq (by norm_num)
  refine ⟨?_, ?_, ?_⟩
  · norm_num [Vector3.IsZeroVector, Vector3.MagnitudeSquared, EPSILON]
  · have hc : ((⟨1, 0, 0⟩ : Vector3 ℝ).CrossProduct
        (Point3.sub ⟨0, 1 / 1000, 0⟩ ⟨0, 0, 0⟩)).MagnitudeSquared = 1 / 1000000 := by
      norm_num [Vector3.CrossProduct, Point3.sub, Vector3.MagnitudeSquared]
    have hd : (⟨1, 0, 0⟩ : Vector3 ℝ).MagnitudeSquared = 1 := by
      norm_num [Vector3.MagnitudeSquared]
    simp only [Line3.DistanceToPoint, Vector3.Magnitude, hc, hd, hs, Real.sqrt_one]
    norm_num [Assert, EPSILON]
  · norm_num [Line3.IsPointOnLine, Vector3.IsParallelTo, Vector3.CrossProduct, Point3.sub,
      Vector3.IsZeroVector, Vector3.MagnitudeSquared, EPSILON]

/-- C12 (amended): for a real line whose direction is not `IsZeroVector` and every point
`r`, `DistanceTo(r)` returns without tripping its assertion a value `dist ≥ 0`;
`dist = 0` implies `IsPointOnLine(r)`; and `IsPointOnLine(r)` holds exactly when
`(dist · |direction|)² < EPSILON`. -/
theorem C12_line_distanceTo_point (L : Line3 ℝ) (r : Point3 ℝ)
    (h : L.direction.IsZeroVector = false) :
    ∃ dist : ℝ,
      L.DistanceToPoint Real.sqrt r = some dist
      ∧ 0 ≤ dist
      ∧ (dist = 0 → L.IsPointOnLine r = true)
      ∧ (L.IsPointOnLine r = true
          ↔ (dist * L.direction.Magnitude Real.sqrt) ^ 2 < EPSILON) := by
  rw [isZeroVector_eq_false_iff] at h
  have hm := EPSILON_lt_sqrt h
  have hpos : 0 < Real.sqrt L.direction.MagnitudeSquared := lt_trans EPSILON_pos hm
  have hC : 0 ≤ (L.direction.CrossProduct (r.sub L.point)).MagnitudeSquared :=
    Vector3.magnitudeSquared_nonneg _
  have hon : L.IsPointOnLine r = true
      ↔ (L.direction.CrossProduct (r.sub L.point)).MagnitudeSquared < EPSILON := by
    simp only [Line3.IsPointOnLine, Vector3.IsParallelTo, Vector3.IsZeroVector,
      decide_eq_true_eq]
  have hmul : Real.sqrt (L.direction.CrossProduct (r.sub L.point)).MagnitudeSquared
        / Real.sqrt L.direction.MagnitudeSquared * Real.sqrt L.direction.MagnitudeSquared
      = Real.sqrt (L.direction.CrossProduct (r.sub L.point)).MagnitudeSquared :=
    div_mul_cancel₀ _ (ne_of_gt hpos)
  refine ⟨Real.sqrt (L.direction.CrossProduct (r.sub L.point)).MagnitudeSquared
    / Real.sqrt L.direction.MagnitudeSquared, ?_, ?_, ?_, ?_⟩
  · simp only [Line3.DistanceToPoint, Vector3.Magnitude,
      assert_of_true (decide_eq_true
        (show Real.sqrt L.direction.MagnitudeSquared > EPSILON from hm)),
      Option.map_some']
  · exact div_nonneg (Real.sqrt_nonneg _) (le_of_lt hpos)
  · intro h0
    rw [hon]
    rw [div_eq_zero_iff] at h0
    rcases h0 with h0 | h0
    · rw [Real.sqrt_eq_zero hC] at h0
      rw [h0]; exact EPSILON_pos
    · exact absurd h0 (ne_of_gt hpos)
  · rw [hon, Vector3.Magnitude, hmul, Real.sq_sqrt hC]

/-- Witness for C12 (amended): the line `((0,0,0),(1,0,0))` and the point `(0,3,4)`. -/
theorem C12_line_distanceTo_point_witness :
    (⟨1, 0, 0⟩ : Vector3 ℝ).IsZeroVector = false
    ∧ ∃ dist : ℝ,
        Line3.DistanceToPoint Real.sqrt (⟨⟨0, 0, 0⟩, ⟨1, 0, 0⟩⟩ : Line3 ℝ) ⟨0, 3, 4⟩ = some dist
        ∧ 0 ≤ dist := by
  have h : (⟨1, 0, 0⟩ : Vector3 ℝ).IsZeroVector = false := by
    norm_num [Vector3.IsZeroVector, Vector3.MagnitudeSquared, EPSILON]
  obtain ⟨dist, h1, h2, _⟩ :=
    C12_line_distanceTo_point (⟨⟨0, 0, 0⟩, ⟨1, 0, 0⟩⟩ : Line3 ℝ) ⟨0, 3, 4⟩ h
  exact ⟨h, dist, h1, h2⟩

/-! ## Distance between lines (C13, C15) -/

/-- C13 (counterexample): the lines `A = ((0,0,0),(1,0,0))` and
`B = ((0,1,0),(1,1/1000,0))` satisfy the Line invariant and `A.IsParallelTo(B)` is true,
but the `z` component of the cross product is `1/1000`, so `GetClosestPointsWith` takes a
component branch; `A.DistanceTo(B)` is `0` while `B.DistanceTo(A.point)` is
`1 / sqrt(1000001/1000000)`, which is not `0`. -/
theorem C13_nearly_parallel_lines_distance :
    (⟨1, 0, 0⟩ : Vector3 ℝ).IsZeroVector = false
    ∧ (⟨1, 1 / 1000, 0⟩ : Vector3 ℝ).IsZeroVector = false
    ∧ Line3.IsParallelTo (⟨⟨0, 0, 0⟩, ⟨1, 0, 0⟩⟩ : Line3 ℝ)
        ⟨⟨0, 1, 0⟩, ⟨1, 1 / 1000, 0⟩⟩ = true
    ∧ Line3.DistanceTo Real.sqrt (⟨⟨0, 0, 0⟩, ⟨1, 0, 0⟩⟩ : Line3 ℝ)
        ⟨⟨0, 1, 0⟩, ⟨1, 1 / 1000, 0⟩⟩ = some 0
    ∧ Line3.DistanceToPoint Real.sqrt (⟨⟨0, 1, 0⟩, ⟨1, 1 / 1000, 0⟩⟩ : Line3 ℝ) ⟨0, 0, 0⟩
        = some (1 / Real.sqrt (1000001 / 1000000))
    ∧ 1 / Real.sqrt (1000001 / 1000000) ≠ 0 := by
  have hpos : (0 : ℝ) < Real.sqrt (1000001 / 1000000) := Real.sqrt_pos.mpr (by norm_num)
  have hp : Line3.closestParams (⟨⟨0, 0, 0⟩, ⟨1, 0, 0⟩⟩ : Line3 ℝ)
      ⟨⟨0, 1, 0⟩, ⟨1, 1 / 1000, 0⟩⟩ = some (-1000, -1000) := by
    have ha : |(1 / 1000 : ℝ)| = 1 / 1000 := abs_of_pos (by norm_num)
    norm_num [Line3.closestParams, Vector3.CrossProduct, Point3.sub, IsZero, EPSILON, ha]
  have hg : Line3.GetClosestPointsWith (⟨⟨0, 0, 0⟩, ⟨1, 0, 0⟩⟩ : Line3 ℝ)
      ⟨⟨0, 1, 0⟩, ⟨1, 1 / 1000, 0⟩⟩ = some (⟨-1000, 0, 0⟩, ⟨-1000, 0, 0⟩) := by
    rw [Line3.GetClosestPointsWith, hp]
    norm_num [Point3.add, Vector3.mul]
  refine ⟨?_, ?_, ?_, ?_, ?_, ?_⟩
  · norm_num [Vector3.IsZeroVector, Vector3.MagnitudeSquared, EPSILON]
  · norm_num [Vector3.IsZeroVector, Vector3.MagnitudeSquared, EPSILON]
  · norm_num [Line3.IsParallelTo, Vector3.IsParallelTo, Vector3.CrossProduct,
      Vector3.IsZeroVector, Vector3.MagnitudeSquared, EPSILON]
  · rw [Line3.DistanceTo, hg]
    norm_num [Point3.sub, Vector3.Magnitude, Vector3.MagnitudeSquared]
  · have hc : ((⟨1, 1 / 1000, 0⟩ : Vector3 ℝ).CrossProduct
        (Point3.sub ⟨0, 0, 0⟩ ⟨0, 1, 0⟩)).MagnitudeSquared = 1 := by
      norm_num [Vector3.CrossProduct, Point3.sub, Vector3.MagnitudeSquared]
    have hd : (⟨1, 1 / 1000, 0⟩ : Vector3 ℝ).MagnitudeSquared = 1000001 / 1000000 := by
      norm_num [Vector3.MagnitudeSquared]
    have hm : Real.sqrt (1000001 / 1000000) > EPSILON := EPSILON_lt_sqrt (by
      norm_num [EPSILON])
    simp only [Line3.DistanceToPoint, Vector3.Magnitude, hc, hd, Real.sqrt_one,
      assert_of_true (decide_eq_true hm), Option.map_some']
  · exact ne_of_gt (div_pos one_pos hpos)

/-- C13 (amended): for real lines `A`, `B` with all three components of the cross product
of the directions `IsZero` (the fallback branch of `GetClosestPointsWith`; then
`A.IsParallelTo(B)` is true) and `|d2|² > EPSILON`, `A.DistanceTo(B)` and
`B.DistanceTo(A.point)` both return, with the same value. -/
theorem C13_parallel_lines_distance (A B : Line3 ℝ)
    (hx : IsZero (A.direction.CrossProduct B.direction).x = true)
    (hy : IsZero (A.direction.CrossProduct B.direction).y = true)
    (hz : IsZero (A.direction.CrossProduct B.direction).z = true)
    (hB : EPSILON < B.direction.MagnitudeSquared) :
    A.IsParallelTo B = true
    ∧ ∃ dist : ℝ,
        A.DistanceTo Real.sqrt B = some dist
        ∧ B.DistanceToPoint Real.sqrt A.point = some dist := by
  have hpar : A.IsParallelTo B = true := by
    by_contra hn
    rw [Bool.not_eq_true] at hn
    rcases exists_component_of_not_isParallelTo hn with h | h | h
    · rw [hx] at h; cases h
    · rw [hy] at h; cases h
    · rw [hz] at h; cases h
  have hm := EPSILON_lt_sqrt (le_of_lt hB)
  have hMpos : 0 < B.direction.MagnitudeSquared := lt_trans EPSILON_pos hB
  have hp : Line3.closestParams A B
      = some (0, -(B.point.sub A.point).DotProduct B.direction
          / B.direction.MagnitudeSquared) := by
    simp only [Line3.closestParams, hx, hy, hz, Bool.not_true, Bool.false_eq_true, if_false,
      assert_of_true (decide_eq_true (show B.direction.MagnitudeSquared > EPSILON from hB)),
      Option.map_some']
  have key : ((B.point.add (B.direction.mul
        (-(B.point.sub A.point).DotProduct B.direction / B.direction.MagnitudeSquared))).sub
        (A.point.add (A.direction.mul 0))).MagnitudeSquared
      = (B.direction.CrossProduct (A.point.sub B.point)).MagnitudeSquared
          / B.direction.MagnitudeSquared := by
    obtain ⟨⟨p1x, p1y, p1z⟩, ⟨d1x, d1y, d1z⟩⟩ := A
    obtain ⟨⟨p2x, p2y, p2z⟩, ⟨d2x, d2y, d2z⟩⟩ := B
    simp only [Vector3.MagnitudeSquared] at hMpos
    have hne : d2x * d2x + d2y * d2y + d2z * d2z ≠ 0 := ne_of_gt hMpos
    simp only [Vector3.MagnitudeSquared, Vector3.CrossProduct, Vector3.DotProduct,
      Vector3.mul, Point3.sub, Point3.add]
    field_simp
    ring
  refine ⟨hpar, Real.sqrt (B.direction.CrossProduct (A.point.sub B.point)).MagnitudeSquared
    / Real.sqrt B.direction.MagnitudeSquared, ?_, ?_⟩
  · rw [Line3.DistanceTo, Line3.GetClosestPointsWith, hp]
    simp only [Option.map_some', Vector3.Magnitude, key, Option.some.injEq]
    exact Real.sqrt_div (Vector3.magnitudeSquared_nonneg _) _
  · simp only [Line3.DistanceToPoint, Vector3.Magnitude,
      assert_of_true (decide_eq_true
        (show Real.sqrt B.direction.MagnitudeSquared > EPSILON from hm)),
      Option.map_some']

/-- Witness for C13 (amended): the parallel lines `((0,0,0),(1,0,0))` and
`((0,1,0),(2,0,0))`. -/
theorem C13_parallel_lines_distance_witness :
    Line3.IsParallelTo (⟨⟨0, 0, 0⟩, ⟨1, 0, 0⟩⟩ : Line3 ℝ) ⟨⟨0, 1, 0⟩, ⟨2, 0, 0⟩⟩ = true
    ∧ ∃ dist : ℝ,
        Line3.DistanceTo Real.sqrt (⟨⟨0, 0, 0⟩, ⟨1, 0, 0⟩⟩ : Line3 ℝ)
          ⟨⟨0, 1, 0⟩, ⟨2, 0, 0⟩⟩ = some dist
        ∧ Line3.DistanceToPoint Real.sqrt (⟨⟨0, 1, 0⟩, ⟨2, 0, 0⟩⟩ : Line3 ℝ) ⟨0, 0, 0⟩
          = some dist :=
  C13_parallel_lines_distance (⟨⟨0, 0, 0⟩, ⟨1, 0, 0⟩⟩ : Line3 ℝ) ⟨⟨0, 1, 0⟩, ⟨2, 0, 0⟩⟩
    (by norm_num [Vector3.CrossProduct, IsZero, EPSILON])
    (by norm_num [Vector3.CrossProduct, IsZero, EPSILON])
    (by norm_num [Vector3.CrossProduct, IsZero, EPSILON])
    (by norm_num [Vector3.MagnitudeSquared, EPSILON])

/-- C15: for the skew lines `A = ((0,0,0),(1,0,0))` and `B = ((0,0,1),(0,1,0))`,
`A.IsSkewTo(B)` is true, `A.PointOfIntersection(B)` is empty and `A.DistanceTo(B)` is `1`. -/
theorem C15_skew_lines_scenario :
    Line3.IsSkewTo (⟨⟨0, 0, 0⟩, ⟨1, 0, 0⟩⟩ : Line3 ℝ) ⟨⟨0, 0, 1⟩, ⟨0, 1, 0⟩⟩ = some true
    ∧ Line3.PointOfIntersection (⟨⟨0, 0, 0⟩, ⟨1, 0, 0⟩⟩ : Line3 ℝ) ⟨⟨0, 0, 1⟩, ⟨0, 1, 0⟩⟩
        = some none
    ∧ Line3.DistanceTo Real.sqrt (⟨⟨0, 0, 0⟩, ⟨1, 0, 0⟩⟩ : Line3 ℝ) ⟨⟨0, 0, 1⟩, ⟨0, 1, 0⟩⟩
        = some 1 := by
  have hp : Line3.closestParams (⟨⟨0, 0, 0⟩, ⟨1, 0, 0⟩⟩ : Line3 ℝ) ⟨⟨0, 0, 1⟩, ⟨0, 1, 0⟩⟩
      = some (0, 0) := by
    norm_num [Line3.closestParams, Vector3.CrossProduct, Point3.sub, IsZero, EPSILON]
  have hg : Line3.GetClosestPointsWith (⟨⟨0, 0, 0⟩, ⟨1, 0, 0⟩⟩ : Line3 ℝ)
      ⟨⟨0, 0, 1⟩, ⟨0, 1, 0⟩⟩ = some (⟨0, 0, 0⟩, ⟨0, 0, 1⟩) := by
    rw [Line3.GetClosestPointsWith, hp]
    norm_num [Point3.add, Vector3.mul]
  have hpar : Line3.IsParallelTo (⟨⟨0, 0, 0⟩, ⟨1, 0, 0⟩⟩ : Line3 ℝ)
      ⟨⟨0, 0, 1⟩, ⟨0, 1, 0⟩⟩ = false := by
    norm_num [Line3.IsParallelTo, Vector3.IsParallelTo, Vector3.CrossProduct,
      Vector3.IsZeroVector, Vector3.MagnitudeSquared, EPSILON]
  have hi : Line3.PointOfIntersection (⟨⟨0, 0, 0⟩, ⟨1, 0, 0⟩⟩ : Line3 ℝ)
      ⟨⟨0, 0, 1⟩, ⟨0, 1, 0⟩⟩ = some none := by
    rw [Line3.PointOfIntersection, hg, hpar]
    norm_num [Point3.eq, EPSILON]
  refine ⟨?_, hi, ?_⟩
  · rw [Line3.IsSkewTo, Line3.IsIntersectingWith, hi, hpar]
    rfl
  · rw [Line3.DistanceTo, hg]
    norm_num [Point3.sub, Vector3.Magnitude, Vector3.MagnitudeSquared]

/-! ## Plane through three points and the angle between lines (C16, C17) -/

/-- The identity of Lagrange: `|a × b|² = |a|²·|b|² - (a·b)²`. -/
theorem Vector3.magnitudeSquared_crossProduct (a b : Vector3 α) :
    (a.CrossProduct b).MagnitudeSquared
      = a.MagnitudeSquared * b.MagnitudeSquared - a.DotProduct b * a.DotProduct b := by
  simp only [Vector3.CrossProduct, Vector3.MagnitudeSquared, Vector3.DotProduct]; ring

/-- C16: a plane returned by `Plane3(p1, p2, p3)` has point `p1` and normal
`cross(p2 - p1, p3 - p1)`; `RelativeDistanceTo` is `0` and `IsPointInPlane` is true at
`p1`, `p2` and `p3`; for `(1,0,0)`, `(0,1,0)`, `(0,0,1)` the normal is `(1,1,1)` and
`DistanceTo((0,0,0))` is `1 / sqrt 3`. -/
theorem C16_plane_of_points :
    (∀ (p1 p2 p3 : Point3 ℝ) (P : Plane3 ℝ), Plane3.ofPoints p1 p2 p3 = some P →
      P.point = p1
      ∧ P.normal = (p2.sub p1).CrossProduct (p3.sub p1)
      ∧ P.RelativeDistanceTo p1 = 0 ∧ P.RelativeDistanceTo p2 = 0
      ∧ P.RelativeDistanceTo p3 = 0
      ∧ P.IsPointInPlane p1 = true ∧ P.IsPointInPlane p2 = true
      ∧ P.IsPointInPlane p3 = true)
    ∧ Plane3.ofPoints (⟨1, 0, 0⟩ : Point3 ℝ) ⟨0, 1, 0⟩ ⟨0, 0, 1⟩
        = some ⟨⟨1, 0, 0⟩, ⟨1, 1, 1⟩⟩
    ∧ Plane3.DistanceToPoint Real.sqrt (⟨⟨1, 0, 0⟩, ⟨1, 1, 1⟩⟩ : Plane3 ℝ) ⟨0, 0, 0⟩
        = some (1 / Real.sqrt 3) := by
  refine ⟨?_, ?_, ?_⟩
  · intro p1 p2 p3 P hP
    have hP2 : P = ⟨p1, (p2.sub p1).CrossProduct (p3.sub p1)⟩ := by
      unfold Plane3.ofPoints Assert at hP
      simp only at hP
      split_ifs at hP
      · simp only [Option.map_some', Option.some.injEq] at hP
        exact hP.symm
      · simp at hP
    subst hP2
    have h1 : Plane3.RelativeDistanceTo
        (⟨p1, (p2.sub p1).CrossProduct (p3.sub p1)⟩ : Plane3 ℝ) p1 = 0 := by
      simp only [Plane3.RelativeDistanceTo, Vector3.DotProduct, Vector3.CrossProduct,
        Point3.sub]
      ring
    have h2 : Plane3.RelativeDistanceTo
        (⟨p1, (p2.sub p1).CrossProduct (p3.sub p1)⟩ : Plane3 ℝ) p2 = 0 := by
      simp only [Plane3.RelativeDistanceTo, Vector3.DotProduct, Vector3.CrossProduct,
        Point3.sub]
      ring
    have h3 : Plane3.RelativeDistanceTo
        (⟨p1, (p2.sub p1).CrossProduct (p3.sub p1)⟩ : Plane3 ℝ) p3 = 0 := by
      simp only [Plane3.RelativeDistanceTo, Vector3.DotProduct, Vector3.CrossProduct,
        Point3.sub]
      ring
    exact ⟨rfl, rfl, h1, h2, h3, isZero_of_eq_zero h1, isZero_of_eq_zero h2,
      isZero_of_eq_zero h3⟩
  · norm_num [Plane3.ofPoints, Assert, Point3.sub, Vector3.CrossProduct,
      Vector3.IsZeroVector, Vector3.MagnitudeSquared, EPSILON]
  · have hd : (⟨1, 1, 1⟩ : Vector3 ℝ).MagnitudeSquared = 3 := by
      norm_num [Vector3.MagnitudeSquared]
    have hm : Real.sqrt 3 > EPSILON := EPSILON_lt_sqrt (by norm_num [EPSILON])
    have hr : Plane3.RelativeDistanceTo (⟨⟨1, 0, 0⟩, ⟨1, 1, 1⟩⟩ : Plane3 ℝ) ⟨0, 0, 0⟩
        = -1 := by
      norm_num [Plane3.RelativeDistanceTo, Vector3.DotProduct, Point3.sub]
    simp only [Plane3.DistanceToPoint, Vector3.Magnitude, hd, hr,
      assert_of_true (decide_eq_true hm), Option.map_some', abs_neg, abs_one]

/-- Witness for C16: the points `(0,0,0)`, `(1,0,0)`, `(0,1,0)` give the plane through
`(0,0,0)` with normal `(0,0,1)`. -/
theorem C16_plane_of_points_witness :
    Plane3.ofPoints (⟨0, 0, 0⟩ : Point3 ℝ) ⟨1, 0, 0⟩ ⟨0, 1, 0⟩
      = some ⟨⟨0, 0, 0⟩, ⟨0, 0, 1⟩⟩
    ∧ Plane3.RelativeDistanceTo (⟨⟨0, 0, 0⟩, ⟨0, 0, 1⟩⟩ : Plane3 ℝ) ⟨0, 1, 0⟩ = 0 := by
  have h : Plane3.ofPoints (⟨0, 0, 0⟩ : Point3 ℝ) ⟨1, 0, 0⟩ ⟨0, 1, 0⟩
      = some ⟨⟨0, 0, 0⟩, ⟨0, 0, 1⟩⟩ := by
    norm_num [Plane3.ofPoints, Assert, Point3.sub, Vector3.CrossProduct,
      Vector3.IsZeroVector, Vector3.MagnitudeSquared, EPSILON]
  exact ⟨h, (C16_plane_of_points.1 _ _ _ _ h).2.2.2.2.1⟩

/-- C17: over the reals, with `acos` the real arccosine, `Line3::AngleBetween` always
returns, without tripping its assertion, a value in `[0, π/2]`; the value is `0` when
`IsIntersectingWith` is false, and otherwise it is `acos(|dot(d1,d2)| / (|d1|·|d2|))`, whose
argument lies in `[0, 1]`. -/
theorem C17_line_angleBetween (A B : Line3 ℝ) :
    ∃ θ : ℝ,
      A.AngleBetween Real.sqrt Real.arccos B = some θ
      ∧ 0 ≤ θ ∧ θ ≤ Real.pi / 2
      ∧ (A.IsIntersectingWith B = some false → θ = 0)
      ∧ (A.IsIntersectingWith B = some true →
          0 ≤ |A.direction.DotProduct B.direction|
                / (A.direction.Magnitude Real.sqrt * B.direction.Magnitude Real.sqrt)
          ∧ |A.direction.DotProduct B.direction|
                / (A.direction.Magnitude Real.sqrt * B.direction.Magnitude Real.sqrt) ≤ 1
          ∧ θ = Real.arccos (|A.direction.DotProduct B.direction|
                / (A.direction.Magnitude Real.sqrt * B.direction.Magnitude Real.sqrt))) := by
  obtain ⟨b, hb⟩ := Line3.isIntersectingWith_ne_abort A B
  cases b with
  | false =>
    refine ⟨0, ?_, le_refl 0, by positivity, fun _ => rfl, ?_⟩
    · simp [Line3.AngleBetween, hb]
    · intro h
      rw [hb] at h
      cases h
  | true =>
    have hpar : A.IsParallelTo B = false := by
      by_contra hn
      rw [Bool.not_eq_false] at hn
      rw [Line3.IsIntersectingWith, Line3.PointOfIntersection, if_pos hn] at hb
      cases hb
    have hcross : EPSILON ≤ (A.direction.CrossProduct B.direction).MagnitudeSquared :=
      (isZeroVector_eq_false_iff _).mp hpar
    rw [Vector3.magnitudeSquared_crossProduct] at hcross
    have hM1 := Vector3.magnitudeSquared_nonneg A.direction
    have hdd := mul_self_nonneg (A.direction.DotProduct B.direction)
    have hprod : EPSILON ≤ A.direction.MagnitudeSquared * B.direction.MagnitudeSquared := by
      linarith
    have hsqrt : Real.sqrt A.direction.MagnitudeSquared
          * Real.sqrt B.direction.MagnitudeSquared
        = Real.sqrt (A.direction.MagnitudeSquared * B.direction.MagnitudeSquared) :=
      (Real.sqrt_mul hM1 _).symm
    have hm : Real.sqrt A.direction.MagnitudeSquared
        * Real.sqrt B.direction.MagnitudeSquared > EPSILON := by
      rw [hsqrt]; exact EPSILON_lt_sqrt hprod
    have hmpos : 0 < Real.sqrt A.direction.MagnitudeSquared
        * Real.sqrt B.direction.MagnitudeSquared := lt_trans EPSILON_pos hm
    have hle : |A.direction.DotProduct B.direction|
        ≤ Real.sqrt A.direction.MagnitudeSquared
          * Real.sqrt B.direction.MagnitudeSquared := by
      rw [hsqrt]
      apply Real.abs_le_sqrt
      have he : (0 : ℝ) < EPSILON := EPSILON_pos
      nlinarith
    have h0 : 0 ≤ |A.direction.DotProduct B.direction|
        / (Real.sqrt A.direction.MagnitudeSquared
          * Real.sqrt B.direction.MagnitudeSquared) :=
      div_nonneg (abs_nonneg _) (le_of_lt hmpos)
    have h1 : |A.direction.DotProduct B.direction|
        / (Real.sqrt A.direction.MagnitudeSquared
          * Real.sqrt B.direction.MagnitudeSquared) ≤ 1 :=
      (div_le_one hmpos).mpr hle
    refine ⟨Real.arccos (|A.direction.DotProduct B.direction|
        / (Real.sqrt A.direction.MagnitudeSquared
          * Real.sqrt B.direction.MagnitudeSquared)), ?_, Real.arccos_nonneg _,
      Real.arccos_le_pi_div_two.mpr h0, ?_, fun _ => ⟨h0, h1, rfl⟩⟩
    · simp only [Line3.AngleBetween, hb, Option.some_bind, Bool.not_true,
        Bool.false_eq_true, if_false, Vector3.Magnitude,
        assert_of_true (decide_eq_true hm), Option.map_some']
    · intro h
      rw [hb] at h
      cases h

/-- Witness for C17: the intersecting lines `((0,0,0),(1,0,0))` and `((0,0,0),(0,1,0))`. -/
theorem C17_line_angleBetween_witness :
    Line3.IsIntersectingWith (⟨⟨0, 0, 0⟩, ⟨1, 0, 0⟩⟩ : Line3 ℝ) ⟨⟨0, 0, 0⟩, ⟨0, 1, 0⟩⟩
      = some true
    ∧ ∃ θ : ℝ,
        Line3.AngleBetween Real.sqrt Real.arccos (⟨⟨0, 0, 0⟩, ⟨1, 0, 0⟩⟩ : Line3 ℝ)
          ⟨⟨0, 0, 0⟩, ⟨0, 1, 0⟩⟩ = some θ
        ∧ θ = Real.arccos (|(⟨1, 0, 0⟩ : Vector3 ℝ).DotProduct ⟨0, 1, 0⟩|
            / ((⟨1, 0, 0⟩ : Vector3 ℝ).Magnitude Real.sqrt
                * (⟨0, 1, 0⟩ : Vector3 ℝ).Magnitude Real.sqrt)) := by
  have hp : Line3.closestParams (⟨⟨0, 0, 0⟩, ⟨1, 0, 0⟩⟩ : Line3 ℝ) ⟨⟨0, 0, 0⟩, ⟨0, 1, 0⟩⟩
      = some (0, 0) := by
    norm_num [Line3.closestParams, Vector3.CrossProduct, Point3.sub, IsZero, EPSILON]
  have hi : Line3.IsIntersectingWith (⟨⟨0, 0, 0⟩, ⟨1, 0, 0⟩⟩ : Line3 ℝ)
      ⟨⟨0, 0, 0⟩, ⟨0, 1, 0⟩⟩ = some true := by
    rw [Line3.IsIntersectingWith, Line3.PointOfIntersection, Line3.GetClosestPointsWith, hp]
    norm_num [Line3.IsParallelTo, Vector3.IsParallelTo, Vector3.CrossProduct,
      Vector3.IsZeroVector, Vector3.MagnitudeSquared, Point3.eq, Point3.add, Vector3.mul,
      EPSILON]
  obtain ⟨θ, h1, _, _, _, h5⟩ := C17_line_angleBetween
    (⟨⟨0, 0, 0⟩, ⟨1, 0, 0⟩⟩ : Line3 ℝ) ⟨⟨0, 0, 0⟩, ⟨0, 1, 0⟩⟩
  exact ⟨hi, θ, h1, (h5 hi).2.2⟩

/-! ## The fallback branch and the relations between lines (C21, C23) -/

/-- C21: when `A.IsParallelTo(B)` is false, a component of the cross product of the
directions has absolute value at least `EPSILON`, the parameters of
`GetClosestPointsWith` are those of the first component branch whose test succeeds (the
third one when the first two fail, so the fallback and its assertion are not reached), and
`GetClosestPointsWith` returns; `PointOfIntersection` and `IsIntersectingWith` never
abort. -/
theorem C21_fallback_unreachable :
    (∀ A B : Line3 α, A.IsParallelTo B = false →
      (EPSILON ≤ |(A.direction.CrossProduct B.direction).x|
        ∨ EPSILON ≤ |(A.direction.CrossProduct B.direction).y|
        ∨ EPSILON ≤ |(A.direction.CrossProduct B.direction).z|)
      ∧ Line3.closestParams A B =
          (if !IsZero (A.direction.CrossProduct B.direction).x then
            some ((B.direction.z * (B.point.sub A.point).y
                    - B.direction.y * (B.point.sub A.point).z)
                  / (A.direction.CrossProduct B.direction).x,
                  (A.direction.z * (B.point.sub A.point).y
                    - A.direction.y * (B.point.sub A.point).z)
                  / (A.direction.CrossProduct B.direction).x)
          else if !IsZero (A.direction.CrossProduct B.direction).y then
            some ((B.direction.z * (B.point.sub A.point).x
                    - B.direction.x * (B.point.sub A.point).z)
                  / -(A.direction.CrossProduct B.direction).y,
                  (A.direction.z * (B.point.sub A.point).x
                    - A.direction.x * (B.point.sub A.point).z)
                  / -(A.direction.CrossProduct B.direction).y)
          else
            some ((B.direction.y * (B.point.sub A.point).x
                    - B.direction.x * (B.point.sub A.point).y)
                  / (A.direction.CrossProduct B.direction).z,
                  (A.direction.y * (B.point.sub A.point).x
                    - A.direction.x * (B.point.sub A.point).y)
                  / (A.direction.CrossProduct B.direction).z))
      ∧ ∃ closestPoints : Point3 α × Point3 α,
          A.GetClosestPointsWith B = some closestPoints)
    ∧ (∀ A B : Line3 α, ∃ r : Option (Point3 α), A.PointOfIntersection B = some r)
    ∧ (∀ A B : Line3 α, ∃ b : Bool, A.IsIntersectingWith B = some b) := by
  refine ⟨?_, Line3.pointOfIntersection_ne_abort, Line3.isIntersectingWith_ne_abort⟩
  intro A B hpar
  have hc := exists_component_of_not_isParallelTo hpar
  refine ⟨?_, ?_, ?_⟩
  · simpa only [isZero_eq_false_iff] using hc
  · unfold Line3.closestParams
    simp only
    by_cases h1 : IsZero (A.direction.CrossProduct B.direction).x = false
    · simp only [h1, Bool.not_false, if_true]
    · rw [Bool.not_eq_false] at h1
      by_cases h2 : IsZero (A.direction.CrossProduct B.direction).y = false
      · simp only [h1, h2, Bool.not_true, Bool.not_false, Bool.false_eq_true, if_true,
          if_false]
      · rw [Bool.not_eq_false] at h2
        have h3 : IsZero (A.direction.CrossProduct B.direction).z = false := by
          rcases hc with h | h | h
          · rw [h1] at h; cases h
          · rw [h2] at h; cases h
          · exact h
        simp only [h1, h2, h3, Bool.not_true, Bool.not_false, Bool.false_eq_true, if_true,
          if_false]
  · obtain ⟨t, ht⟩ := closestParams_isSome_of_component hc
    rw [Line3.GetClosestPointsWith, ht]
    exact ⟨_, rfl⟩

/-- Witness for C21: the lines `((1,2,0),(-1,1,3))` and `((1,1,2),(1,3,-1))` of the demo
program are not parallel; the cross product of their directions is `(-10, 2, -4)`. -/
theorem C21_fallback_unreachable_witness :
    Line3.IsParallelTo (⟨⟨1, 2, 0⟩, ⟨-1, 1, 3⟩⟩ : Line3 ℚ) ⟨⟨1, 1, 2⟩, ⟨1, 3, -1⟩⟩ = false
    ∧ (EPSILON ≤ |((⟨-1, 1, 3⟩ : Vector3 ℚ).CrossProduct ⟨1, 3, -1⟩).x|
        ∨ EPSILON ≤ |((⟨-1, 1, 3⟩ : Vector3 ℚ).CrossProduct ⟨1, 3, -1⟩).y|
        ∨ EPSILON ≤ |((⟨-1, 1, 3⟩ : Vector3 ℚ).CrossProduct ⟨1, 3, -1⟩).z|)
    ∧ ∃ closestPoints : Point3 ℚ × Point3 ℚ,
        Line3.GetClosestPointsWith (⟨⟨1, 2, 0⟩, ⟨-1, 1, 3⟩⟩ : Line3 ℚ)
          ⟨⟨1, 1, 2⟩, ⟨1, 3, -1⟩⟩ = some closestPoints := by
  have h : Line3.IsParallelTo (⟨⟨1, 2, 0⟩, ⟨-1, 1, 3⟩⟩ : Line3 ℚ)
      ⟨⟨1, 1, 2⟩, ⟨1, 3, -1⟩⟩ = false := by
    norm_num [Line3.IsParallelTo, Vector3.IsParallelTo, Vector3.CrossProduct,
      Vector3.IsZeroVector, Vector3.MagnitudeSquared, EPSILON]
  have hw := C21_fallback_unreachable.1 (⟨⟨1, 2, 0⟩, ⟨-1, 1, 3⟩⟩ : Line3 ℚ)
    ⟨⟨1, 1, 2⟩, ⟨1, 3, -1⟩⟩ h
  exact ⟨h, hw.1, hw.2.2⟩

/-- C23: none of `IsIntersectingWith`, `IsSkewTo` and `IsOrthogonalTo` aborts; exactly one
of `IsParallelTo`, `IsIntersectingWith` and `IsSkewTo` is true; `IsOrthogonalTo` implies
`IsIntersectingWith`; and skew lines are not orthogonal, whatever their directions. -/
theorem C23_line_relations_trichotomy (A B : Line3 α) :
    ∃ intersecting skew orthogonal : Bool,
      A.IsIntersectingWith B = some intersecting
      ∧ A.IsSkewTo B = some skew
      ∧ A.IsOrthogonalTo B = some orthogonal
      ∧ ((A.IsParallelTo B = true ∧ intersecting = false ∧ skew = false)
          ∨ (A.IsParallelTo B = false ∧ intersecting = true ∧ skew = false)
          ∨ (A.IsParallelTo B = false ∧ intersecting = false ∧ skew = true))
      ∧ (orthogonal = true → intersecting = true)
      ∧ (skew = true → orthogonal = false) := by
  obtain ⟨b, hb⟩ := Line3.isIntersectingWith_ne_abort A B
  by_cases hpar : A.IsParallelTo B = true
  · have hb2 : b = false := by
      rw [Line3.IsIntersectingWith, Line3.PointOfIntersection, if_pos hpar] at hb
      simp only [Option.map_some', Option.isSome_none, Option.some.injEq] at hb
      exact hb.symm
    subst hb2
    by_cases ho : A.direction.IsOrthogonalTo B.direction = true
    · refine ⟨false, false, false, hb, ?_, ?_, Or.inl ⟨hpar, rfl, rfl⟩, ?_, ?_⟩
      · simp [Line3.IsSkewTo, hpar]
      · simp [Line3.IsOrthogonalTo, ho, hb]
      · intro h; cases h
      · intro _; rfl
    · refine ⟨false, false, false, hb, ?_, ?_, Or.inl ⟨hpar, rfl, rfl⟩, ?_, ?_⟩
      · simp [Line3.IsSkewTo, hpar]
      · simp [Line3.IsOrthogonalTo, ho]
      · intro h; cases h
      · intro _; rfl
  · rw [Bool.not_eq_true] at hpar
    have hs : A.IsSkewTo B = some (!b) := by
      simp [Line3.IsSkewTo, hpar, hb]
    by_cases ho : A.direction.IsOrthogonalTo B.direction = true
    · have hor : A.IsOrthogonalTo B = some b := by
        simp [Line3.IsOrthogonalTo, ho, hb]
      refine ⟨b, !b, b, hb, hs, hor, ?_, fun h => h, ?_⟩
      · cases b
        · exact Or.inr (Or.inr ⟨hpar, rfl, rfl⟩)
        · exact Or.inr (Or.inl ⟨hpar, rfl, rfl⟩)
      · cases b <;> simp
    · have hor : A.IsOrthogonalTo B = some false := by
        simp [Line3.IsOrthogonalTo, ho]
      refine ⟨b, !b, false, hb, hs, hor, ?_, ?_, fun _ => rfl⟩
      · cases b
        · exact Or.inr (Or.inr ⟨hpar, rfl, rfl⟩)
        · exact Or.inr (Or.inl ⟨hpar, rfl, rfl⟩)
      · intro h; cases h

/-- Witness for C23: the skew lines `((0,0,0),(1,0,0))` and `((0,0,1),(0,1,0))` have
orthogonal directions and are not orthogonal. -/
theorem C23_line_relations_trichotomy_witness :
    (⟨1, 0, 0⟩ : Vector3 ℚ).IsOrthogonalTo ⟨0, 1, 0⟩ = true
    ∧ Line3.IsSkewTo (⟨⟨0, 0, 0⟩, ⟨1, 0, 0⟩⟩ : Line3 ℚ) ⟨⟨0, 0, 1⟩, ⟨0, 1, 0⟩⟩ = some true
    ∧ Line3.IsOrthogonalTo (⟨⟨0, 0, 0⟩, ⟨1, 0, 0⟩⟩ : Line3 ℚ) ⟨⟨0, 0, 1⟩, ⟨0, 1, 0⟩⟩
        = some false := by
  have hp : Line3.closestParams (⟨⟨0, 0, 0⟩, ⟨1, 0, 0⟩⟩ : Line3 ℚ) ⟨⟨0, 0, 1⟩, ⟨0, 1, 0⟩⟩
      = some (0, 0) := by
    norm_num [Line3.closestParams, Vector3.CrossProduct, Point3.sub, IsZero, EPSILON]
  have hs : Line3.IsSkewTo (⟨⟨0, 0, 0⟩, ⟨1, 0, 0⟩⟩ : Line3 ℚ)
      ⟨⟨0, 0, 1⟩, ⟨0, 1, 0⟩⟩ = some true := by
    rw [Line3.IsSkewTo, Line3.IsIntersectingWith, Line3.PointOfIntersection,
      Line3.GetClosestPointsWith, hp]
    norm_num [Line3.IsParallelTo, Vector3.IsParallelTo, Vector3.CrossProduct,
      Vector3.IsZeroVector, Vector3.MagnitudeSquared, Point3.eq, Point3.add, Vector3.mul,
      EPSILON]
  obtain ⟨i, s, o, _, h2, h3, _, _, h6⟩ := C23_line_relations_trichotomy
    (⟨⟨0, 0, 0⟩, ⟨1, 0, 0⟩⟩ : Line3 ℚ) ⟨⟨0, 0, 1⟩, ⟨0, 1, 0⟩⟩
  have hst : s = true := by
    rw [hs] at h2
    exact (Option.some.inj h2).symm
  refine ⟨?_, hs, ?_⟩
  · norm_num [Vector3.IsOrthogonalTo, Vector3.DotProduct, EPSILON]
  · rw [h3, h6 hst]

/-! ## Symmetry of the distance between lines (C22) -/

/-- With a component branch available, `DistanceTo` does not depend on the order of the
lines: the two closest points are exchanged. -/
theorem Line3.distanceTo_comm_of_component (sqrt : α → α) {A B : Line3 α}
    (hc : IsZero (A.direction.CrossProduct B.direction).x = false
      ∨ IsZero (A.direction.CrossProduct B.direction).y = false
      ∨ IsZero (A.direction.CrossProduct B.direction).z = false) :
    ∃ dist : α, A.DistanceTo sqrt B = some dist ∧ B.DistanceTo sqrt A = some dist := by
  obtain ⟨t, ht⟩ := closestParams_isSome_of_component hc
  have hs := closestParams_swap hc
  rw [ht] at hs
  refine ⟨((B.point.add (B.direction.mul t.2)).sub
    (A.point.add (A.direction.mul t.1))).Magnitude sqrt, ?_, ?_⟩
  · simp only [Line3.DistanceTo, Line3.GetClosestPointsWith, ht, Option.map_some']
  · simp only [Line3.DistanceTo, Line3.GetClosestPointsWith, hs, Option.map_some',
      Prod.swap, Vector3.Magnitude, Option.some.injEq]
    congr 1
    simp only [Vector3.MagnitudeSquared, Point3.sub]
    ring

/-- In the fallback branch with `|d2|² > EPSILON`, `A.DistanceTo(B)` is the square root of
`|d2 × (p1 - p2)|² / |d2|²`: the distance of `A.point` from the line `B`. -/
theorem Line3.distanceTo_of_fallback (sqrt : α → α) {A B : Line3 α}
    (hx : IsZero (A.direction.CrossProduct B.direction).x = true)
    (hy : IsZero (A.direction.CrossProduct B.direction).y = true)
    (hz : IsZero (A.direction.CrossProduct B.direction).z = true)
    (hB : EPSILON < B.direction.MagnitudeSquared) :
    A.DistanceTo sqrt B
      = some (sqrt ((B.direction.CrossProduct (A.point.sub B.point)).MagnitudeSquared
          / B.direction.MagnitudeSquared)) := by
  have hMpos : 0 < B.direction.MagnitudeSquared := lt_trans EPSILON_pos hB
  have hp : Line3.closestParams A B
      = some (0, -(B.point.sub A.point).DotProduct B.direction
          / B.direction.MagnitudeSquared) := by
    simp only [Line3.closestParams, hx, hy, hz, Bool.not_true, Bool.false_eq_true, if_false,
      assert_of_true (decide_eq_true (show B.direction.MagnitudeSquared > EPSILON from hB)),
      Option.map_some']
  have key : ((B.point.add (B.direction.mul
        (-(B.point.sub A.point).DotProduct B.direction / B.direction.MagnitudeSquared))).sub
        (A.point.add (A.direction.mul 0))).MagnitudeSquared
      = (B.direction.CrossProduct (A.point.sub B.point)).MagnitudeSquared
          / B.direction.MagnitudeSquared := by
    obtain ⟨⟨p1x, p1y, p1z⟩, ⟨d1x, d1y, d1z⟩⟩ := A
    obtain ⟨⟨p2x, p2y, p2z⟩, ⟨d2x, d2y, d2z⟩⟩ := B
    simp only [Vector3.MagnitudeSquared] at hMpos
    have hne : d2x * d2x + d2y * d2y + d2z * d2z ≠ 0 := ne_of_gt hMpos
    simp only [Vector3.MagnitudeSquared, Vector3.CrossProduct, Vector3.DotProduct,
      Vector3.mul, Point3.sub, Point3.add]
    field_simp
    ring
  rw [Line3.DistanceTo, Line3.GetClosestPointsWith, hp]
  simp only [Option.map_some', Vector3.Magnitude, key]

/-- For exactly parallel vectors `a`, `b` (cross product `(0,0,0)`) and any `u`:
`|a|²·|b × u|² = |b|²·|a × u|²`. -/
theorem Vector3.magnitudeSquared_crossProduct_of_parallel (a b u : Vector3 α)
    (h : a.CrossProduct b = ⟨0, 0, 0⟩) (ha : a.MagnitudeSquared ≠ 0) :
    a.MagnitudeSquared * (b.CrossProduct u).MagnitudeSquared
      = b.MagnitudeSquared * (a.CrossProduct u).MagnitudeSquared := by
  obtain ⟨ax, ay, az⟩ := a
  obtain ⟨bx, by_, bz⟩ := b
  obtain ⟨ux, uy, uz⟩ := u
  simp only [Vector3.CrossProduct, Vector3.mk.injEq] at h
  obtain ⟨h1, h2, h3⟩ := h
  simp only [Vector3.MagnitudeSquared, Vector3.CrossProduct] at ha ⊢
  have ix : (ax * ax + ay * ay + az * az) * bx = (ax * bx + ay * by_ + az * bz) * ax := by
    linear_combination (-ay) * h3 + az * h2
  have iy : (ax * ax + ay * ay + az * az) * by_ = (ax * bx + ay * by_ + az * bz) * ay := by
    linear_combination ax * h3 - az * h1
  have iz : (ax * ax + ay * ay + az * az) * bz = (ax * bx + ay * by_ + az * bz) * az := by
    linear_combination (-ax) * h2 + ay * h1
  have ex : (ax * ax + ay * ay + az * az) * (by_ * uz - bz * uy)
      = (ax * bx + ay * by_ + az * bz) * (ay * uz - az * uy) := by
    linear_combination uz * iy - uy * iz
  have ey : (ax * ax + ay * ay + az * az) * (bz * ux - bx * uz)
      = (ax * bx + ay * by_ + az * bz) * (az * ux - ax * uz) := by
    linear_combination ux * iz - uz * ix
  have ez : (ax * ax + ay * ay + az * az) * (bx * uy - by_ * ux)
      = (ax * bx + ay * by_ + az * bz) * (ax * uy - ay * ux) := by
    linear_combination uy * ix - ux * iy
  have hs : (ax * bx + ay * by_ + az * bz) * (ax * bx + ay * by_ + az * bz)
      = (ax * ax + ay * ay + az * az) * (bx * bx + by_ * by_ + bz * bz) := by
    linear_combination (-(ay * bz - az * by_)) * h1 - (az * bx - ax * bz) * h2
      - (ax * by_ - ay * bx) * h3
  apply mul_left_cancel₀ ha
  linear_combination
    ((ax * ax + ay * ay + az * az) * (by_ * uz - bz * uy)
      + (ax * bx + ay * by_ + az * bz) * (ay * uz - az * uy)) * ex
    + ((ax * ax + ay * ay + az * az) * (bz * ux - bx * uz)
      + (ax * bx + ay * by_ + az * bz) * (az * ux - ax * uz)) * ey
    + ((ax * ax + ay * ay + az * az) * (bx * uy - by_ * ux)
      + (ax * bx + ay * by_ + az * bz) * (ax * uy - ay * ux)) * ez
    + ((ay * uz - az * uy) * (ay * uz - az * uy) + (az * ux - ax * uz) * (az * ux - ax * uz)
      + (ax * uy - ay * ux) * (ax * uy - ay * ux)) * hs

/-- C22 (counterexample): the lines `A = ((0,0,0),(1,0,0))` and
`B = ((1000000,0,0),(1,1/1000000,0))` satisfy the Line invariant and meet at
`(1000000,0,0)`; every component of the cross product of the directions is `IsZero`, so
both calls take the fallback branch: `A.DistanceTo(B)` is the distance of `(0,0,0)` from
`B`, `sqrt(1000000000000/1000000000001)`, and `B.DistanceTo(A)` is the distance of
`(1000000,0,0)` from `A`, which is `0`. -/
theorem C22_distance_not_symmetric :
    (⟨1, 0, 0⟩ : Vector3 ℝ).IsZeroVector = false
    ∧ (⟨1, 1 / 1000000, 0⟩ : Vector3 ℝ).IsZeroVector = false
    ∧ Line3.DistanceTo Real.sqrt (⟨⟨0, 0, 0⟩, ⟨1, 0, 0⟩⟩ : Line3 ℝ)
        ⟨⟨1000000, 0, 0⟩, ⟨1, 1 / 1000000, 0⟩⟩
        = some (Real.sqrt (1000000000000 / 1000000000001))
    ∧ Line3.DistanceTo Real.sqrt (⟨⟨1000000, 0, 0⟩, ⟨1, 1 / 1000000, 0⟩⟩ : Line3 ℝ)
        ⟨⟨0, 0, 0⟩, ⟨1, 0, 0⟩⟩ = some 0
    ∧ Real.sqrt (1000000000000 / 1000000000001) ≠ 0 := by
  have ha : |(1 / 1000000 : ℝ)| = 1 / 1000000 := abs_of_pos (by norm_num)
  refine ⟨?_, ?_, ?_, ?_, ?_⟩
  · norm_num [Vector3.IsZeroVector, Vector3.MagnitudeSquared, EPSILON]
  · norm_num [Vector3.IsZeroVector, Vector3.MagnitudeSquared, EPSILON]
  · rw [Line3.distanceTo_of_fallback Real.sqrt
      (by norm_num [Vector3.CrossProduct, IsZero, EPSILON])
      (by norm_num [Vector3.CrossProduct, IsZero, EPSILON])
      (by norm_num [Vector3.CrossProduct, IsZero, EPSILON, ha])
      (by norm_num [Vector3.MagnitudeSquared, EPSILON])]
    congr 2
    norm_num [Vector3.CrossProduct, Point3.sub, Vector3.MagnitudeSquared]
  · rw [Line3.distanceTo_of_fallback Real.sqrt
      (by norm_num [Vector3.CrossProduct, IsZero, EPSILON])
      (by norm_num [Vector3.CrossProduct, IsZero, EPSILON])
      (by norm_num [Vector3.CrossProduct, IsZero, EPSILON, ha])
      (by norm_num [Vector3.MagnitudeSquared, EPSILON])]
    norm_num [Vector3.CrossProduct, Point3.sub, Vector3.MagnitudeSquared]
  · exact ne_of_gt (Real.sqrt_pos.mpr (by norm_num))

/-- C22 (amended): over the reals, `A.DistanceTo(B)` and `B.DistanceTo(A)` both return,
with the same value, when some component of the cross product of the directions is not
`IsZero` (a component branch is taken), and when that cross product is exactly `(0,0,0)`
and both `|d1|²` and `|d2|²` exceed `EPSILON`. -/
theorem C22_distance_symmetric (A B : Line3 ℝ) :
    ((IsZero (A.direction.CrossProduct B.direction).x = false
        ∨ IsZero (A.direction.CrossProduct B.direction).y = false
        ∨ IsZero (A.direction.CrossProduct B.direction).z = false) →
      ∃ dist : ℝ,
        A.DistanceTo Real.sqrt B = some dist ∧ B.DistanceTo Real.sqrt A = some dist)
    ∧ (A.direction.CrossProduct B.direction = ⟨0, 0, 0⟩ →
        EPSILON < A.direction.MagnitudeSquared → EPSILON < B.direction.MagnitudeSquared →
        ∃ dist : ℝ,
          A.DistanceTo Real.sqrt B = some dist ∧ B.DistanceTo Real.sqrt A = some dist) := by
  refine ⟨Line3.distanceTo_comm_of_component Real.sqrt, ?_⟩
  intro hc hA hB
  have hAB : ∀ k : ℝ, k = 0 → IsZero k = true := fun k hk => isZero_of_eq_zero hk
  have hc2 : B.direction.CrossProduct A.direction = ⟨0, 0, 0⟩ := by
    simp only [Vector3.CrossProduct, Vector3.mk.injEq] at hc ⊢
    obtain ⟨h1, h2, h3⟩ := hc
    refine ⟨?_, ?_, ?_⟩
    · linear_combination -h1
    · linear_combination -h2
    · linear_combination -h3
  have dAB := Line3.distanceTo_of_fallback Real.sqrt (A := A) (B := B)
    (hAB _ (by rw [hc])) (hAB _ (by rw [hc])) (hAB _ (by rw [hc])) hB
  have dBA := Line3.distanceTo_of_fallback Real.sqrt (A := B) (B := A)
    (hAB _ (by rw [hc2])) (hAB _ (by rw [hc2])) (hAB _ (by rw [hc2])) hA
  have hM1 : 0 < A.direction.MagnitudeSquared := lt_trans EPSILON_pos hA
  have hM2 : 0 < B.direction.MagnitudeSquared := lt_trans EPSILON_pos hB
  have hpar := Vector3.magnitudeSquared_crossProduct_of_parallel A.direction B.direction
    (A.point.sub B.point) hc (ne_of_gt hM1)
  have hneg : (A.direction.CrossProduct (B.point.sub A.point)).MagnitudeSquared
      = (A.direction.CrossProduct (A.point.sub B.point)).MagnitudeSquared := by
    simp only [Vector3.CrossProduct, Vector3.MagnitudeSquared, Point3.sub]
    ring
  refine ⟨_, dAB, ?_⟩
  rw [dBA, hneg]
  congr 2
  rw [div_eq_div_iff (ne_of_gt hM1) (ne_of_gt hM2)]
  linear_combination -hpar

/-- Witness for C22 (amended): the parallel lines `((0,0,0),(1,0,0))` and
`((0,1,0),(2,0,0))`. -/
theorem C22_distance_symmetric_witness :
    (⟨1, 0, 0⟩ : Vector3 ℝ).CrossProduct ⟨2, 0, 0⟩ = ⟨0, 0, 0⟩
    ∧ ∃ dist : ℝ,
        Line3.DistanceTo Real.sqrt (⟨⟨0, 0, 0⟩, ⟨1, 0, 0⟩⟩ : Line3 ℝ)
          ⟨⟨0, 1, 0⟩, ⟨2, 0, 0⟩⟩ = some dist
        ∧ Line3.DistanceTo Real.sqrt (⟨⟨0, 1, 0⟩, ⟨2, 0, 0⟩⟩ : Line3 ℝ)
          ⟨⟨0, 0, 0⟩, ⟨1, 0, 0⟩⟩ = some dist := by
  have hc : (⟨1, 0, 0⟩ : Vector3 ℝ).CrossProduct ⟨2, 0, 0⟩ = ⟨0, 0, 0⟩ := by
    norm_num [Vector3.CrossProduct]
  exact ⟨hc, (C22_distance_symmetric (⟨⟨0, 0, 0⟩, ⟨1, 0, 0⟩⟩ : Line3 ℝ)
    ⟨⟨0, 1, 0⟩, ⟨2, 0, 0⟩⟩).2 hc
    (by norm_num [Vector3.MagnitudeSquared, EPSILON])
    (by norm_num [Vector3.MagnitudeSquared, EPSILON])⟩

end LinAlg
